import Mathlib

/-!
# rmw_fastrtps: node lifecycle, participant construction and return-code mapping

A shallow embedding of

* `rmw_fastrtps_shared_cpp/src/utils.cpp`       (`cast_error_dds_to_rmw`),
* `rmw_fastrtps_shared_cpp/src/rmw_node.cpp`    (`__rmw_create_node`, `__rmw_destroy_node`,
  `__rmw_node_get_graph_guard_condition`),
* `rmw_fastrtps_shared_cpp/src/participant.cpp` (`__create_participant`, `create_participant`),
* `rmw_fastrtps_shared_cpp/src/subscription.cpp` (`destroy_subscription`).

Stateful code is written in explicit state-passing style.  Everything the
functions obtain from collaborators that are not part of these files (the name
validators, the allocator's success or failure, the publish primitive) is an
input, collected in an environment record, so every theorem quantifies over
all behaviours of those collaborators.  `RMW_SET_ERROR_MSG` writes the
thread-local rcutils error string, which is not part of the context; it is
marked by a comment at each place and carries no state here.
-/

set_option linter.unusedVariables false

namespace RmwFastrtps

/-! ## Return codes -/

/-- The type `rmw_ret_t` is a signed 32-bit integer.  The header `rmw/ret_types.h` is not among
these files; the constants below carry the values it gives them. -/
abbrev rmw_ret_t := Int

def RMW_RET_OK : rmw_ret_t := 0
def RMW_RET_ERROR : rmw_ret_t := 1
def RMW_RET_TIMEOUT : rmw_ret_t := 2
def RMW_RET_UNSUPPORTED : rmw_ret_t := 3
def RMW_RET_BAD_ALLOC : rmw_ret_t := 10
def RMW_RET_INVALID_ARGUMENT : rmw_ret_t := 11

/-- The value `RMW_NODE_NAME_VALID` of `rmw/validate_node_name.h`. -/
def RMW_NODE_NAME_VALID : Int := 0
/-- The value `RMW_NAMESPACE_VALID` of `rmw/validate_namespace.h`. -/
def RMW_NAMESPACE_VALID : Int := 0

/-- The class `eprosima::fastrtps::types::ReturnCode_t` wraps a `uint32_t`; two codes are equal
when their values are.  Every natural number is admitted, so the mapping below is checked on
more values than the transport can produce.  The header `fastrtps/types/TypesBase.h` is not
among these files; the constants below carry the values of its `ReturnCodeValue`. -/
abbrev ReturnCode_t := Nat

namespace ReturnCode_t
def RETCODE_OK : ReturnCode_t := 0
def RETCODE_ERROR : ReturnCode_t := 1
def RETCODE_UNSUPPORTED : ReturnCode_t := 2
def RETCODE_BAD_PARAMETER : ReturnCode_t := 3
def RETCODE_PRECONDITION_NOT_MET : ReturnCode_t := 4
def RETCODE_OUT_OF_RESOURCES : ReturnCode_t := 5
def RETCODE_NOT_ENABLED : ReturnCode_t := 6
def RETCODE_IMMUTABLE_POLICY : ReturnCode_t := 7
def RETCODE_INCONSISTENT_POLICY : ReturnCode_t := 8
def RETCODE_ALREADY_DELETED : ReturnCode_t := 9
def RETCODE_TIMEOUT : ReturnCode_t := 10
def RETCODE_NO_DATA : ReturnCode_t := 11
def RETCODE_ILLEGAL_OPERATION : ReturnCode_t := 12
def RETCODE_NOT_ALLOWED_BY_SECURITY : ReturnCode_t := 13
end ReturnCode_t

/-- The function `cast_error_dds_to_rmw` of `utils.cpp`: an if/else-if chain, in source order. -/
def cast_error_dds_to_rmw (code : ReturnCode_t) : rmw_ret_t :=
  if code = ReturnCode_t.RETCODE_OK then
    RMW_RET_OK
  else if code = ReturnCode_t.RETCODE_ERROR then
    RMW_RET_ERROR
  else if code = ReturnCode_t.RETCODE_TIMEOUT then
    RMW_RET_TIMEOUT
  else if code = ReturnCode_t.RETCODE_UNSUPPORTED then
    RMW_RET_UNSUPPORTED
  else if code = ReturnCode_t.RETCODE_BAD_PARAMETER then
    RMW_RET_INVALID_ARGUMENT
  else if code = ReturnCode_t.RETCODE_OUT_OF_RESOURCES then
    RMW_RET_BAD_ALLOC
  else
    RMW_RET_ERROR

/-! ## Directory messages and the graph cache -/

/-- A participant or entity GID (`rmw_gid_t`), kept opaque. -/
abbrev rmw_gid_t := Nat

/-- One node of a participant with the entities it owns
(`rmw_dds_common::msg::NodeEntitiesInfo`). -/
structure NodeEntitiesInfo where
  node_namespace : String
  node_name : String
  reader_gid_seq : List rmw_gid_t
  writer_gid_seq : List rmw_gid_t
deriving DecidableEq, Repr

/-- The directory message: one participant's GID with its complete list of
nodes (`rmw_dds_common::msg::ParticipantEntitiesInfo`). -/
structure ParticipantEntitiesInfo where
  gid : rmw_gid_t
  node_entities_info_seq : List NodeEntitiesInfo
deriving DecidableEq, Repr

/-- Modelled from the spec: the class `rmw_dds_common::GraphCache`, whose code is not in these
files.  Section 3 of the spec: a mapping from participant id to that participant's view, an
ordered collection of node records in which duplicates are kept (multiplicity, not a set). -/
structure GraphCache where
  participants : List (rmw_gid_t × List NodeEntitiesInfo)
deriving DecidableEq, Repr

namespace GraphCache

/-- The stored view of `pid`, if the cache has an entry for it. -/
def find (gc : GraphCache) (pid : rmw_gid_t) : Option (List NodeEntitiesInfo) :=
  (gc.participants.find? (fun e => e.1 = pid)).map Prod.snd

/-- The view of `pid`; a participant never observed has no nodes. -/
def view (gc : GraphCache) (pid : rmw_gid_t) : List NodeEntitiesInfo :=
  (gc.find pid).getD []

/-- Replace the view stored for `pid` in the entry list, adding an entry at
first observation. -/
def setEntry (pid : rmw_gid_t) (v : List NodeEntitiesInfo) :
    List (rmw_gid_t × List NodeEntitiesInfo) → List (rmw_gid_t × List NodeEntitiesInfo)
  | [] => [(pid, v)]
  | e :: es => if e.1 = pid then (pid, v) :: es else e :: setEntry pid v es

/-- Remove the first record with the given name and namespace; a view without
a match is returned as it is. -/
def removeFirst (name namespace_ : String) : List NodeEntitiesInfo → List NodeEntitiesInfo
  | [] => []
  | n :: ns =>
    if n.node_name = name ∧ n.node_namespace = namespace_ then ns
    else n :: removeFirst name namespace_ ns

/-- Modelled from the spec: `add_node(pid, name, namespace)` of section 4.1.  It inserts a node
record under the view of `pid` (also when an equal record is already there) and returns the full
current view of `pid` as a directory message.  It never fails. -/
def add_node (gc : GraphCache) (pid : rmw_gid_t) (name namespace_ : String) :
    GraphCache × ParticipantEntitiesInfo :=
  let v := gc.view pid ++ [{ node_namespace := namespace_, node_name := name,
                             reader_gid_seq := [], writer_gid_seq := [] }]
  ({ participants := setEntry pid v gc.participants }, { gid := pid, node_entities_info_seq := v })

/-- Modelled from the spec: `remove_node(pid, name, namespace)` of section 4.1.  It removes the
first matching node record together with the entities it owns; without a match the view is
returned unchanged and no error is raised. -/
def remove_node (gc : GraphCache) (pid : rmw_gid_t) (name namespace_ : String) :
    GraphCache × ParticipantEntitiesInfo :=
  match gc.find pid with
  | none => (gc, { gid := pid, node_entities_info_seq := [] })
  | some v =>
    let w := removeFirst name namespace_ v
    ({ participants := setEntry pid w gc.participants }, { gid := pid, node_entities_info_seq := w })

end GraphCache

/-! ## Allocator, context and node handles -/

/-- The state behind `context->options.allocator`: the addresses in use and the next address that
was never handed out.  A successful allocation returns an address that is not in use. -/
structure AllocatorState where
  next : Nat
  live : List Nat
deriving DecidableEq, Repr

/-- What a call does to its collaborators, in program order. -/
inductive Event where
  | allocate (addr : Nat)
  | deallocate (addr : Nat)
  | lock
  | unlock
  | add_node (gid : rmw_gid_t) (name namespace_ : String)
  | remove_node (gid : rmw_gid_t) (name namespace_ : String)
  | publish (msg : ParticipantEntitiesInfo)
deriving DecidableEq, Repr

/-- A `char *` returned by `rcutils_strdup`: the address of the copy and the characters in it. -/
structure CString where
  addr : Nat
  chars : String
deriving DecidableEq, Repr

/-- The structure `rmw_node_t`, with the address it was allocated at.  A null pointer is `none`. -/
structure rmw_node_t where
  addr : Nat
  implementation_identifier : String
  data : Option Nat
  name : Option CString
  namespace_ : Option CString
  context : Option Nat
deriving DecidableEq, Repr

/-- The `rmw_context_t` with the `rmw_dds_common::Context` behind `context->impl->common`:
the local participant gid, the graph cache, the allocator of `context->options`, the triggered
flag of `graph_guard_condition`, and the record of the calls made so far (`lock` and `unlock`
are those of `node_update_mutex`, `publish` those on `common_context->pub`). -/
structure Context where
  handle : Nat
  implementation_identifier : String
  gid : rmw_gid_t
  graph_cache : GraphCache
  allocator : AllocatorState
  graph_guard_condition : Bool
  trace : List Event
deriving DecidableEq, Repr

/-- The collaborators of one call: the two validators of `rmw` (each returns its return code and
the value left in `validation_result`), whether each allocation request is granted, and the
return code of `__rmw_publish` for the message it is handed. -/
structure Env where
  rmw_validate_node_name : String → rmw_ret_t × Int
  rmw_validate_namespace : String → rmw_ret_t × Int
  zero_allocate_ok : Bool
  strdup_name_ok : Bool
  strdup_namespace_ok : Bool
  rmw_publish : ParticipantEntitiesInfo → rmw_ret_t

namespace Context

/-- Append one event to the record of calls. -/
def emit (ctx : Context) (e : Event) : Context :=
  { ctx with trace := ctx.trace ++ [e] }

/-- A request to the allocator (`allocator.zero_allocate`, or the `allocate` inside
`rcutils_strdup`): null when refused, otherwise a fresh address, now in use. -/
def allocate (ctx : Context) (ok : Bool) : Option Nat × Context :=
  if ok then
    let a := ctx.allocator.next
    (some a, { ctx with allocator := { next := a + 1, live := a :: ctx.allocator.live },
                        trace := ctx.trace ++ [Event.allocate a] })
  else
    (none, ctx)

/-- The call `allocator.deallocate(p, allocator.state)`; a null pointer is ignored, as by `free`. -/
def deallocate (ctx : Context) (p : Option Nat) : Context :=
  match p with
  | none => ctx
  | some a => { ctx with allocator := { ctx.allocator with live := ctx.allocator.live.erase a },
                         trace := ctx.trace ++ [Event.deallocate a] }

end Context

/-- The function `rcutils_strdup(str, allocator)`: a copy of `str` in freshly allocated memory,
or null when the allocation is refused. -/
def rcutils_strdup (ctx : Context) (str : String) (ok : Bool) : Option CString × Context :=
  match ctx.allocate ok with
  | (none, ctx1) => (none, ctx1)
  | (some a, ctx1) => (some { addr := a, chars := str }, ctx1)

/-- The scope-exit action `cleanup_node` of `__rmw_create_node`: it reads the node fields when it
fires and deallocates the name, the namespace and the node, in that order. -/
def cleanup_node (ctx : Context) (node : rmw_node_t) : Context :=
  ((ctx.deallocate (node.name.map CString.addr)).deallocate
    (node.namespace_.map CString.addr)).deallocate (some node.addr)

/-- The function `__rmw_create_node` of `rmw_node.cpp`.  The result is the returned pointer
(`none` for `nullptr`) and the context after the call.  On `return nullptr` inside the update
block the lock guard is destroyed first and the scope-exit action fires after it. -/
def rmw_create_node (env : Env) (ctx : Context) (identifier name namespace_ : String) :
    Option rmw_node_t × Context :=
  let (ret, validation_result) := env.rmw_validate_node_name name
  if ret ≠ RMW_RET_OK ∨ validation_result ≠ RMW_NODE_NAME_VALID then
    -- RMW_SET_ERROR_MSG_WITH_FORMAT_STRING("invalid node name: %s", reason)
    (none, ctx)
  else
  let (ret, validation_result) := env.rmw_validate_namespace namespace_
  if ret ≠ RMW_RET_OK ∨ validation_result ≠ RMW_NAMESPACE_VALID then
    -- RMW_SET_ERROR_MSG_WITH_FORMAT_STRING("invalid node namespace: %s", reason)
    (none, ctx)
  else
  match ctx.allocate env.zero_allocate_ok with
  | (none, ctx1) =>
    -- RMW_SET_ERROR_MSG("failed to allocate node")
    (none, ctx1)
  | (some p, ctx1) =>
    let node : rmw_node_t :=
      { addr := p, implementation_identifier := ctx.implementation_identifier,
        data := none, name := none, namespace_ := none, context := none }
    match rcutils_strdup ctx1 name env.strdup_name_ok with
    | (none, ctx2) =>
      -- RMW_SET_ERROR_MSG("failed to copy node name")
      (none, cleanup_node ctx2 node)
    | (some copy, ctx2) =>
      let node := { node with name := some copy }
      match rcutils_strdup ctx2 namespace_ env.strdup_namespace_ok with
      | (none, ctx3) =>
        -- RMW_SET_ERROR_MSG("failed to copy node namespace")
        (none, cleanup_node ctx3 node)
      | (some copy, ctx3) =>
        let node := { node with namespace_ := some copy, context := some ctx.handle }
        let ctx4 := ctx3.emit Event.lock
        let (graph_cache, participant_msg) := ctx4.graph_cache.add_node ctx4.gid name namespace_
        let ctx5 := { ctx4 with graph_cache := graph_cache }.emit
          (Event.add_node ctx4.gid name namespace_)
        let ret := env.rmw_publish participant_msg
        let ctx6 := ctx5.emit (Event.publish participant_msg)
        if ret ≠ RMW_RET_OK then
          (none, cleanup_node (ctx6.emit Event.unlock) node)
        else
          -- cleanup_node.cancel()
          (some node, ctx6.emit Event.unlock)

/-- The function `__rmw_destroy_node` of `rmw_node.cpp`.  The call of `remove_node` builds a
`std::string` from `node->name` and one from `node->namespace_`; building one from a null
pointer has no defined behaviour, and the result is then `none`. -/
def rmw_destroy_node (env : Env) (ctx : Context) (identifier : String) (node : rmw_node_t) :
    Option (rmw_ret_t × Context) :=
  match node.name, node.namespace_ with
  | some name, some namespace_ =>
    let ctx1 := ctx.emit Event.lock
    let (graph_cache, participant_msg) :=
      ctx1.graph_cache.remove_node ctx1.gid name.chars namespace_.chars
    let ctx2 := { ctx1 with graph_cache := graph_cache }.emit
      (Event.remove_node ctx1.gid name.chars namespace_.chars)
    let ret := env.rmw_publish participant_msg
    let ctx3 := ctx2.emit (Event.publish participant_msg)
    if ret ≠ RMW_RET_OK then
      some (ret, ctx3.emit Event.unlock)
    else
      let ctx4 := ctx3.emit Event.unlock
      let ctx5 := ctx4.deallocate (some name.addr)
      let ctx6 := ctx5.deallocate (some namespace_.addr)
      let ctx7 := ctx6.deallocate (some node.addr)
      some (RMW_RET_OK, ctx7)
  | _, _ => none

/-- The events of a record that mutate the graph cache or publish a message. -/
def update_events (t : List Event) : List Event :=
  t.filter (fun e =>
    match e with
    | Event.add_node _ _ _ => true
    | Event.remove_node _ _ _ => true
    | Event.publish _ => true
    | _ => false)

/-- The cache mutations of a record. -/
def cache_mutations (t : List Event) : List Event :=
  t.filter (fun e =>
    match e with
    | Event.add_node _ _ _ => true
    | Event.remove_node _ _ _ => true
    | _ => false)

/-! ## Sample inputs -/

/-- Validators that accept every name, an allocator that grants every request,
and a publish primitive that returns `ret`. -/
def envWith (ret : rmw_ret_t) : Env :=
  { rmw_validate_node_name := fun _ => (RMW_RET_OK, RMW_NODE_NAME_VALID),
    rmw_validate_namespace := fun _ => (RMW_RET_OK, RMW_NAMESPACE_VALID),
    zero_allocate_ok := true, strdup_name_ok := true, strdup_namespace_ok := true,
    rmw_publish := fun _ => ret }

/-- A context whose graph cache knows the local participant 7 without nodes. -/
def ctx0 : Context :=
  { handle := 1, implementation_identifier := "rmw_fastrtps_cpp", gid := 7,
    graph_cache := { participants := [(7, [])] },
    allocator := { next := 100, live := [] },
    graph_guard_condition := false, trace := [] }


/-! ## Participant construction -/

/-- The sub-resources `__create_participant` acquires, in the order it acquires them. -/
inductive Resource where
  | graph_guard_condition
  | listener
  | participant
  | participant_info
deriving DecidableEq, Repr

/-- An acquisition, or a call of the release action of a sub-resource:
`__rmw_destroy_guard_condition` for the guard condition, `rmw_free` for the listener,
`Domain::removeParticipant` for the participant. -/
inductive ResourceEvent where
  | acquire (r : Resource)
  | release (r : Resource)
deriving DecidableEq, Repr

/-- The collaborators of `__create_participant`: whether each acquisition succeeds, and the
return code of `__rmw_destroy_guard_condition` (it is only logged). -/
structure ParticipantEnv where
  create_guard_condition_ok : Bool
  new_listener_ok : Bool
  createParticipant_ok : Bool
  new_participant_info_ok : Bool
  destroy_guard_condition_ret : rmw_ret_t
deriving DecidableEq, Repr

/-- The structure `CustomParticipantInfo` as `__create_participant` fills it; the three pointers
are the sub-resources it now owns. -/
structure CustomParticipantInfo where
  leave_middleware_default_qos : Bool
  participant : Resource
  listener : Resource
  graph_guard_condition : Resource
deriving DecidableEq, Repr

/-- The block after the label `fail:` of `__create_participant`.  The arguments are the local
pointers (null is `none`) at the jump; `rmw_free` of a null listener does nothing. -/
def create_participant_fail (env : ParticipantEnv) (log : List ResourceEvent)
    (graph_guard_condition listener participant : Option Resource) : List ResourceEvent :=
  let log :=
    match graph_guard_condition with
    | some g =>
      let ret := env.destroy_guard_condition_ret
      -- if (ret != RMW_RET_OK) RCUTILS_LOG_ERROR_NAMED(...)
      log ++ [ResourceEvent.release g]
    | none => log
  let log :=
    match listener with
    | some l => log ++ [ResourceEvent.release l]
    | none => log
  match participant with
  | some p => log ++ [ResourceEvent.release p]
  | none => log

/-- The static function `__create_participant` of `participant.cpp`.  The result is the returned
pointer (`none` for `nullptr`) with the acquisitions and releases made, in program order.  A
failed `Domain::createParticipant` returns at once; the other three failures jump to `fail:`. -/
def create_participant (env : ParticipantEnv) (leave_middleware_default_qos : Bool) :
    Option CustomParticipantInfo × List ResourceEvent :=
  if ¬ env.create_guard_condition_ok then
    -- error already set; goto fail
    (none, create_participant_fail env [] none none none)
  else
  let log := [ResourceEvent.acquire Resource.graph_guard_condition]
  if ¬ env.new_listener_ok then
    -- RMW_SET_ERROR_MSG("failed to allocate participant listener"); goto fail
    (none, create_participant_fail env log (some Resource.graph_guard_condition) none none)
  else
  let log := log ++ [ResourceEvent.acquire Resource.listener]
  if ¬ env.createParticipant_ok then
    -- RMW_SET_ERROR_MSG("create_node() could not create participant"); return nullptr
    (none, log)
  else
  let log := log ++ [ResourceEvent.acquire Resource.participant]
  if ¬ env.new_participant_info_ok then
    -- RMW_SET_ERROR_MSG("failed to allocate node impl struct"); goto fail
    (none, create_participant_fail env log (some Resource.graph_guard_condition)
      (some Resource.listener) (some Resource.participant))
  else
  let log := log ++ [ResourceEvent.acquire Resource.participant_info]
  (some { leave_middleware_default_qos := leave_middleware_default_qos,
          participant := Resource.participant,
          listener := Resource.listener,
          graph_guard_condition := Resource.graph_guard_condition },
   log)

/-- The sub-resources acquired in a log, in order of acquisition. -/
def acquired (log : List ResourceEvent) : List Resource :=
  log.filterMap (fun e =>
    match e with
    | ResourceEvent.acquire r => some r
    | ResourceEvent.release _ => none)

/-- The sub-resources released in a log, in order of release. -/
def released (log : List ResourceEvent) : List Resource :=
  log.filterMap (fun e =>
    match e with
    | ResourceEvent.release r => some r
    | ResourceEvent.acquire _ => none)

/-- The events a call appended to the record `before`, given the record `after` the call. -/
def new_events (before after : List Event) : List Event :=
  after.drop before.length

/-- The node record `add_node` inserts for a name and a namespace. -/
def node_record (name namespace_ : String) : NodeEntitiesInfo :=
  { node_namespace := namespace_, node_name := name, reader_gid_seq := [], writer_gid_seq := [] }

/-- Like `envWith`, with a name validator that reports the name as invalid (`result` other than
`RMW_NODE_NAME_VALID`). -/
def envInvalidName (result : Int) : Env :=
  { envWith RMW_RET_OK with rmw_validate_node_name := fun _ => (RMW_RET_OK, result) }

/-- The node `__rmw_create_node` returns for "talker" in "/" at `ctx0`. -/
def node0 : rmw_node_t :=
  { addr := 100, implementation_identifier := "rmw_fastrtps_cpp", data := none,
    name := some { addr := 101, chars := "talker" },
    namespace_ := some { addr := 102, chars := "/" }, context := some 1 }

/-- The context after `__rmw_create_node` created `node0` at `ctx0`. -/
def ctx1 : Context :=
  (rmw_create_node (envWith RMW_RET_OK) ctx0 "rmw_fastrtps_cpp" "talker" "/").2

/-- Every acquisition succeeds except `Domain::createParticipant`. -/
def envCreateParticipantFails : ParticipantEnv :=
  { create_guard_condition_ok := true, new_listener_ok := true, createParticipant_ok := false,
    new_participant_info_ok := true, destroy_guard_condition_ret := RMW_RET_OK }

/-- Every acquisition succeeds except the allocation of `CustomParticipantInfo`. -/
def envParticipantInfoFails : ParticipantEnv :=
  { create_guard_condition_ok := true, new_listener_ok := true, createParticipant_ok := true,
    new_participant_info_ok := false, destroy_guard_condition_ret := RMW_RET_OK }

/-! ## Subscription destruction -/

/-- The structure `CustomSubscriberInfo` as far as `destroy_subscription` reads it: the data
reader, the listener and the type support; a null pointer is `none`. -/
structure CustomSubscriberInfo where
  subscriber_ : Nat
  listener_ : Option Nat
  type_support_ : Option Nat
deriving DecidableEq, Repr

/-- The structure `rmw_subscription_t` as far as `destroy_subscription` reads it. -/
structure rmw_subscription_t where
  implementation_identifier : String
  data : Option CustomSubscriberInfo
  topic_name : String
deriving DecidableEq, Repr

/-- What `destroy_subscription` releases, in program order. -/
inductive SubscriptionEvent where
  | delete_datareader (reader : Nat)
  | delete_listener (listener : Nat)
  | delete_type_support (type_support : Nat)
  | delete_info
  | free_topic_name
  | subscription_free
deriving DecidableEq, Repr

/-- The collaborators of `destroy_subscription`: the return code of
`participant_info->subscriber_->delete_datareader` for a data reader, and whether the fault
injection of `RCUTILS_CAN_RETURN_WITH_ERROR_OF` fires at this call (never, when fault injection
is disabled). -/
structure SubscriptionEnv where
  delete_datareader : Nat → ReturnCode_t
  fault_injection_fail_now : Bool

/-- The statements of `destroy_subscription` after its if/else (lines 71 to 75): the topic name
and the subscription are freed, then the function returns `ret`, or `RMW_RET_ERROR` when the
fault injection fires. -/
def destroy_subscription_completion (env : SubscriptionEnv) (ret : rmw_ret_t)
    (log : List SubscriptionEvent) : rmw_ret_t × List SubscriptionEvent :=
  let log := log ++ [SubscriptionEvent.free_topic_name, SubscriptionEvent.subscription_free]
  if env.fault_injection_fail_now then
    -- RCUTILS_CAN_RETURN_WITH_ERROR_OF(RMW_RET_ERROR)
    (RMW_RET_ERROR, log)
  else
    (ret, log)

/-- The function `destroy_subscription` of `subscription.cpp`: the return code and what was
released, in program order.  The inner `ret` of the source, a `ReturnCode_t`, shadows the outer
`rmw_ret_t`, which therefore is still `RMW_RET_OK` after a successful deletion. -/
def destroy_subscription (env : SubscriptionEnv) (identifier : String)
    (subscription : rmw_subscription_t) : rmw_ret_t × List SubscriptionEvent :=
  let ret : rmw_ret_t := RMW_RET_OK
  match subscription.data with
  | some info =>
    let ret_dds : ReturnCode_t := env.delete_datareader info.subscriber_
    if ret_dds ≠ ReturnCode_t.RETCODE_OK then
      -- RMW_SET_ERROR_MSG("Fail in delete datareader")
      (cast_error_dds_to_rmw ret_dds, [])
    else
      let log := [SubscriptionEvent.delete_datareader info.subscriber_]
      let log :=
        match info.listener_ with
        | some l => log ++ [SubscriptionEvent.delete_listener l]
        | none => log
      let log :=
        match info.type_support_ with
        | some t => log ++ [SubscriptionEvent.delete_type_support t]
        | none => log
      destroy_subscription_completion env ret (log ++ [SubscriptionEvent.delete_info])
  | none =>
    destroy_subscription_completion env RMW_RET_INVALID_ARGUMENT []

/-- A subscription whose data pointer is set, with a listener and a type support. -/
def subscription0 : rmw_subscription_t :=
  { implementation_identifier := "rmw_fastrtps_cpp",
    data := some { subscriber_ := 40, listener_ := some 41, type_support_ := some 42 },
    topic_name := "rt/chatter" }

/-- A `delete_datareader` that returns `code`, without fault injection. -/
def subscriptionEnvWith (code : ReturnCode_t) : SubscriptionEnv :=
  { delete_datareader := fun _ => code, fault_injection_fail_now := false }

/-! ## The public `create_participant` and the user data it builds -/

/-- The bytes of a string constant of the source, with the terminating zero byte. -/
def literal (s : String) : List Nat :=
  s.toList.map Char.toNat ++ [0]

/-- The characters a `const char *` points to: the bytes in memory before the first zero byte. -/
def c_chars (p : List Nat) : List Nat :=
  p.takeWhile (fun b => decide (b ≠ 0))

/-- The function `strlen` of the C library, on the memory a pointer points to. -/
def strlen (p : List Nat) : Nat :=
  (c_chars p).length

/-- The largest `int` (32 bits). -/
def INT_MAX : Int := 2 ^ 31 - 1

/-- The conversion `static_cast<int>(n)` of a `size_t`: the low 32 bits, read as signed. -/
def static_cast_int (n : Nat) : Int :=
  if n % 2 ^ 32 < 2 ^ 31 then (n % 2 ^ 32 : Nat) else (n % 2 ^ 32 : Nat) - 2 ^ 32

/-- The variable `length` of `create_participant` (lines 149 and 150), a `size_t` of 64 bits. -/
def user_data_length (context_name context_namespace : List Nat) : Nat :=
  (strlen context_name + strlen (literal "name=;") +
    strlen context_namespace + strlen (literal "namespace=;") + 1) % 2 ^ 64

/-- The text the format "name=%s;namespace=%s;" produces for the two arguments. -/
def format_user_data (context_name context_namespace : List Nat) : List Nat :=
  c_chars (literal "name=") ++ c_chars context_name ++ c_chars (literal ";namespace=") ++
    c_chars context_namespace ++ c_chars (literal ";")

/-- The call `v.resize(n)` of a `std::vector<octet>`: the first `n` bytes are kept and new bytes
are zero. -/
def resize (v : List Nat) (n : Nat) : List Nat :=
  v.take n ++ List.replicate (n - v.length) 0

/-- The function `snprintf` of the C library, given the formatted text: with `size` above zero it
writes at most `size - 1` characters of the text and then a zero byte at the start of the
buffer; it returns the length of the whole text, or a negative value when that is no `int`. -/
def snprintf (buffer : List Nat) (size : Nat) (text : List Nat) : List Nat × Int :=
  let written : Int := if (text.length : Int) ≤ INT_MAX then (text.length : Int) else -1
  let out :=
    if size = 0 then buffer
    else (text.take (size - 1) ++ [0]) ++ buffer.drop ((text.take (size - 1)).length + 1)
  (out, written)

/-- A locator (`eprosima::fastrtps::rtps::Locator_t`) as `create_participant` fills it. -/
structure Locator_t where
  kind : Int
  port : Nat
  address : String
deriving DecidableEq, Repr

/-- The enumeration `MemoryManagementPolicy` of fastrtps. -/
inductive MemoryManagementPolicy where
  | PREALLOCATED_MEMORY_MODE
  | PREALLOCATED_WITH_REALLOC_MEMORY_MODE
  | DYNAMIC_RESERVE_MEMORY_MODE
  | DYNAMIC_REUSABLE_MEMORY_MODE
deriving DecidableEq, Repr

/-- The fields of `ParticipantAttributes` that `create_participant` writes. -/
structure ParticipantAttributes where
  domainId : Nat
  metatrafficUnicastLocatorList : List Locator_t
  initialPeersList : List Locator_t
  userData : List Nat
  readerHistoryMemoryPolicy : MemoryManagementPolicy
  writerHistoryMemoryPolicy : MemoryManagementPolicy
  properties : List (String × String)
deriving DecidableEq, Repr

/-- The structure `rmw_security_options_t`; `enforce_security` is true for
`RMW_SECURITY_ENFORCEMENT_ENFORCE`. -/
structure rmw_security_options_t where
  enforce_security : Bool
  security_root_path : Option String
deriving DecidableEq, Repr

/-- The collaborators of `create_participant`: the attributes of the default XML profile, the
result of `rcutils_get_env` (its error string and the value it stores), whether the security
libraries are compiled in, the lookup of the six security files, and the collaborators of
`__create_participant`. -/
structure CreateParticipantEnv where
  getDefaultParticipantAttributes : ParticipantAttributes
  rcutils_get_env : Option String × Option String
  HAVE_SECURITY : Bool
  get_security_file_paths : String → Option (Fin 6 → String)
  participant : ParticipantEnv

/-- The places where `create_participant` returns `nullptr` before it calls
`__create_participant`, named after the message each one reports. -/
inductive CreateParticipantError where
  | security_options_is_null
  | failed_to_populate_user_data_buffer
  | error_getting_env_var
  | couldnt_find_all_security_files
  | no_security_libraries
deriving DecidableEq, Repr

/-- The locator of the local network interface (lines 137 to 141). -/
def local_network_interface_locator : Locator_t :=
  { kind := 1, port := 0, address := "127.0.0.1" }

/-- The nine security properties of lines 186 to 211, for the six file paths. -/
def security_properties (security_files_paths : Fin 6 → String) : List (String × String) :=
  [("dds.sec.auth.plugin", "builtin.PKI-DH"),
   ("dds.sec.auth.builtin.PKI-DH.identity_ca", security_files_paths 0),
   ("dds.sec.auth.builtin.PKI-DH.identity_certificate", security_files_paths 1),
   ("dds.sec.auth.builtin.PKI-DH.private_key", security_files_paths 2),
   ("dds.sec.crypto.plugin", "builtin.AES-GCM-GMAC"),
   ("dds.sec.access.plugin", "builtin.Access-Permissions"),
   ("dds.sec.access.builtin.Access-Permissions.permissions_ca", security_files_paths 3),
   ("dds.sec.access.builtin.Access-Permissions.governance", security_files_paths 4),
   ("dds.sec.access.builtin.Access-Permissions.permissions", security_files_paths 5)]

/-- Lines 160 to 224 of `rmw_fastrtps_shared_cpp::create_participant`: reading the environment
for `RMW_FASTRTPS_USE_QOS_FROM_XML`, the history memory policies and the security
properties.  The result is the place of an early `return nullptr`, or the attributes and the
flag `leave_middleware_default_qos` handed to `__create_participant`. -/
def create_participant_qos_and_security (env : CreateParticipantEnv)
    (security_options : rmw_security_options_t) (participantAttrs : ParticipantAttributes) :
    Except CreateParticipantError (ParticipantAttributes × Bool) :=
  let leave_middleware_default_qos : Bool := false
  match env.rcutils_get_env with
  | (some error_str, _) => Except.error CreateParticipantError.error_getting_env_var
  | (none, env_value) =>
    let leave_middleware_default_qos : Bool :=
      match env_value with
      | some v => decide (v = "1")
      | none => leave_middleware_default_qos
    let participantAttrs :=
      if leave_middleware_default_qos = false then
        { participantAttrs with
          readerHistoryMemoryPolicy :=
            MemoryManagementPolicy.PREALLOCATED_WITH_REALLOC_MEMORY_MODE,
          writerHistoryMemoryPolicy :=
            MemoryManagementPolicy.PREALLOCATED_WITH_REALLOC_MEMORY_MODE }
      else participantAttrs
    match security_options.security_root_path with
    | some security_root_path =>
      if env.HAVE_SECURITY then
        match env.get_security_file_paths security_root_path with
        | some security_files_paths =>
          Except.ok ({ participantAttrs with
                        properties := security_properties security_files_paths },
                     leave_middleware_default_qos)
        | none =>
          if security_options.enforce_security then
            Except.error CreateParticipantError.couldnt_find_all_security_files
          else
            Except.ok (participantAttrs, leave_middleware_default_qos)
      else
        Except.error CreateParticipantError.no_security_libraries
    | none => Except.ok (participantAttrs, leave_middleware_default_qos)

/-- Lines 125 to 224 of `rmw_fastrtps_shared_cpp::create_participant`: everything before the
call of `__create_participant`.  The result is the place of an early `return nullptr`, or the
attributes and the flag `leave_middleware_default_qos` handed to `__create_participant`.  The
two strings are given as the memory their pointers point to. -/
def create_participant_attributes (env : CreateParticipantEnv) (domain_id : Nat)
    (security_options : Option rmw_security_options_t) (localhost_only : Bool)
    (context_name context_namespace : List Nat) :
    Except CreateParticipantError (ParticipantAttributes × Bool) :=
  match security_options with
  | none => Except.error CreateParticipantError.security_options_is_null
  | some security_options =>
    let participantAttrs := env.getDefaultParticipantAttributes
    let participantAttrs := { participantAttrs with domainId := domain_id % 2 ^ 32 }
    let participantAttrs :=
      if localhost_only then
        { participantAttrs with
          metatrafficUnicastLocatorList :=
            participantAttrs.metatrafficUnicastLocatorList ++ [local_network_interface_locator],
          initialPeersList :=
            participantAttrs.initialPeersList ++ [local_network_interface_locator] }
      else participantAttrs
    let participantAttrs := { participantAttrs with domainId := domain_id % 2 ^ 32 }
    let length := user_data_length context_name context_namespace
    let userData := resize participantAttrs.userData length
    let (userData, written) :=
      snprintf userData length (format_user_data context_name context_namespace)
    let participantAttrs := { participantAttrs with userData := userData }
    if written < 0 ∨ written > static_cast_int length - 1 then
      Except.error CreateParticipantError.failed_to_populate_user_data_buffer
    else
      create_participant_qos_and_security env security_options participantAttrs

/-- The function `rmw_fastrtps_shared_cpp::create_participant` of `participant.cpp`: the
preparation of the attributes, then the call of `__create_participant` (lines 225 to 229). -/
def rmw_fastrtps_shared_cpp.create_participant (env : CreateParticipantEnv) (identifier : String)
    (domain_id : Nat) (security_options : Option rmw_security_options_t) (localhost_only : Bool)
    (context_name context_namespace : List Nat) :
    Option CustomParticipantInfo × List ResourceEvent :=
  match create_participant_attributes env domain_id security_options localhost_only
      context_name context_namespace with
  | Except.error _ => (none, [])
  | Except.ok (participantAttrs, leave_middleware_default_qos) =>
    RmwFastrtps.create_participant env.participant leave_middleware_default_qos

/-- The two local node mutations: the update section of `__rmw_create_node` (lines 105 to 122)
and the one of `__rmw_destroy_node` (lines 141 to 153), for a name and a namespace. -/
inductive Mutation where
  | create_node (name namespace_ : String)
  | destroy_node (name namespace_ : String)
deriving DecidableEq, Repr

namespace Mutation

/-- The graph cache call of the update section: `add_node` or `remove_node`. -/
def apply (m : Mutation) (graph_cache : GraphCache) (gid : rmw_gid_t) :
    GraphCache × ParticipantEntitiesInfo :=
  match m with
  | create_node name namespace_ => graph_cache.add_node gid name namespace_
  | destroy_node name namespace_ => graph_cache.remove_node gid name namespace_

/-- The event the graph cache call leaves in the record. -/
def event (m : Mutation) (gid : rmw_gid_t) : Event :=
  match m with
  | create_node name namespace_ => Event.add_node gid name namespace_
  | destroy_node name namespace_ => Event.remove_node gid name namespace_

end Mutation

/-- Where a thread stands in its update section. -/
inductive UpdatePoint where
  | before_lock
  | holding
  | mutated (participant_msg : ParticipantEntitiesInfo)
  | published (ret : rmw_ret_t)
  | after_unlock
deriving DecidableEq, Repr

/-- Whether a thread is between the construction and the destruction of its lock guard. -/
def UpdatePoint.in_section : UpdatePoint → Bool
  | UpdatePoint.holding => true
  | UpdatePoint.mutated _ => true
  | UpdatePoint.published _ => true
  | _ => false

/-- The state several threads share through one `rmw_dds_common::Context`: the graph cache, the
owner of `node_update_mutex` (`none` when it is free), where each thread stands, and the record
of the calls made, each with the thread that made it. -/
structure UpdateState where
  gid : rmw_gid_t
  graph_cache : GraphCache
  node_update_mutex : Option Nat
  point : Nat → UpdatePoint
  trace : List (Nat × Event)

/-- One step of thread `t` in its update section.  The constructor of the lock guard takes the
mutex only when it is free and blocks otherwise; then come the graph cache call, the call of
`__rmw_publish` with the message the cache returned, and the destruction of the guard, which
follows a failed publish (`return`) as well as a successful one (end of the block). -/
def update_step (publish : Nat → ParticipantEntitiesInfo → rmw_ret_t) (mutation : Nat → Mutation)
    (s : UpdateState) (t : Nat) : UpdateState :=
  match s.point t with
  | UpdatePoint.before_lock =>
    match s.node_update_mutex with
    | none =>
      { s with node_update_mutex := some t,
               point := Function.update s.point t UpdatePoint.holding,
               trace := s.trace ++ [(t, Event.lock)] }
    | some _ => s
  | UpdatePoint.holding =>
    let (graph_cache, participant_msg) := (mutation t).apply s.graph_cache s.gid
    { s with graph_cache := graph_cache,
             point := Function.update s.point t (UpdatePoint.mutated participant_msg),
             trace := s.trace ++ [(t, (mutation t).event s.gid)] }
  | UpdatePoint.mutated participant_msg =>
    { s with point := Function.update s.point t
               (UpdatePoint.published (publish t participant_msg)),
             trace := s.trace ++ [(t, Event.publish participant_msg)] }
  | UpdatePoint.published _ =>
    { s with node_update_mutex := none,
             point := Function.update s.point t UpdatePoint.after_unlock,
             trace := s.trace ++ [(t, Event.unlock)] }
  | UpdatePoint.after_unlock => s

/-- The threads run in the order of `schedule`, one step at each turn. -/
def update_run (publish : Nat → ParticipantEntitiesInfo → rmw_ret_t) (mutation : Nat → Mutation)
    (s : UpdateState) (schedule : List Nat) : UpdateState :=
  schedule.foldl (update_step publish mutation) s

/-- The shared state of a context before any thread entered its update section. -/
def update_start (ctx : Context) : UpdateState :=
  { gid := ctx.gid, graph_cache := ctx.graph_cache, node_update_mutex := none,
    point := fun _ => UpdatePoint.before_lock, trace := [] }

/-- The phases of a record in which update sections do not overlap: no section is open, or
one thread has its section open and has made none, the first or both of its two calls. -/
inductive LockPhase where
  | free
  | locked (t : Nat)
  | mutated (t : Nat)
  | published (t : Nat)
deriving DecidableEq, Repr

/-- The only event that may follow in each phase: a `lock` when no section is open, otherwise
the next call of the thread whose section is open. -/
def LockPhase.next : LockPhase → Nat × Event → Option LockPhase
  | LockPhase.free, (t, Event.lock) => some (LockPhase.locked t)
  | LockPhase.locked h, (t, Event.add_node _ _ _) =>
    if t = h then some (LockPhase.mutated h) else none
  | LockPhase.locked h, (t, Event.remove_node _ _ _) =>
    if t = h then some (LockPhase.mutated h) else none
  | LockPhase.mutated h, (t, Event.publish _) =>
    if t = h then some (LockPhase.published h) else none
  | LockPhase.published h, (t, Event.unlock) =>
    if t = h then some LockPhase.free else none
  | _, _ => none

/-- The phase a record ends in, or `none` when some event of it is not the one its phase
admits, that is, when two update sections overlap. -/
def LockPhase.run : LockPhase → List (Nat × Event) → Option LockPhase
  | p, [] => some p
  | p, e :: rest =>
    match p.next e with
    | some q => q.run rest
    | none => none

/-- The phase of a shared state, read from the owner of the mutex and where the owner stands. -/
def UpdateState.phase (s : UpdateState) : LockPhase :=
  match s.node_update_mutex with
  | none => LockPhase.free
  | some t =>
    match s.point t with
    | UpdatePoint.mutated _ => LockPhase.mutated t
    | UpdatePoint.published _ => LockPhase.published t
    | _ => LockPhase.locked t

/-- The cache mutations and publishes of a record, with their threads. -/
def thread_updates (trace : List (Nat × Event)) : List (Nat × Event) :=
  trace.filter (fun e =>
    match e.2 with
    | Event.add_node _ _ _ => true
    | Event.remove_node _ _ _ => true
    | Event.publish _ => true
    | _ => false)

/-- Whether an event is a cache mutation. -/
def Event.is_mutation : Event → Bool
  | Event.add_node _ _ _ => true
  | Event.remove_node _ _ _ => true
  | _ => false

/-- Whether an event is a publish. -/
def Event.is_publish : Event → Bool
  | Event.publish _ => true
  | _ => false

/-- In a list of cache mutations and publishes: every mutation is directly followed by a
publish of the same thread, unless it is the last event, and every publish directly follows a
mutation. -/
def mutation_then_publish : List (Nat × Event) → Bool
  | [] => true
  | [(_, e)] => e.is_mutation
  | (t, e) :: (u, f) :: rest =>
    e.is_mutation && f.is_publish && decide (t = u) && mutation_then_publish rest

/-- What is left of such a list when the section of thread `h` is open after its mutation: the
publish of `h`, if it was made, and then lists as above. -/
def publish_then_rest (h : Nat) : List (Nat × Event) → Bool
  | [] => true
  | (u, f) :: rest => f.is_publish && decide (u = h) && mutation_then_publish rest

/-- The state of the threads agrees with the record: the record ends in the phase of the
state, and the mutex is owned by a thread exactly while that thread is in its section. -/
def UpdateState.consistent (s : UpdateState) : Prop :=
  LockPhase.run LockPhase.free s.trace = some s.phase ∧
  ∀ t, (s.point t).in_section = true ↔ s.node_update_mutex = some t

/-- Whether `node_update_mutex` is held after the events of a call, when it was free before. -/
def lock_held (events : List Event) : Bool :=
  events.foldl (fun held e =>
    match e with
    | Event.lock => true
    | Event.unlock => false
    | _ => held) false

/-- Thread 0 creates the node "talker" and thread 1 destroys it. -/
def mutation0 (t : Nat) : Mutation :=
  if t = 0 then Mutation.create_node "talker" "/" else Mutation.destroy_node "talker" "/"

/-! ## Theorems -/

/-! ### The graph cache -/

/-- The view stored by `setEntry` is the one found afterwards. -/
theorem GraphCache.find_setEntry (pid : rmw_gid_t) (v : List NodeEntitiesInfo)
    (ps : List (rmw_gid_t × List NodeEntitiesInfo)) :
    (GraphCache.mk (GraphCache.setEntry pid v ps)).find pid = some v := by
  induction ps with
  | nil => simp [GraphCache.setEntry, GraphCache.find]
  | cons e es ih =>
    by_cases h : e.1 = pid
    · simp [GraphCache.setEntry, GraphCache.find, h]
    · simpa [GraphCache.setEntry, GraphCache.find, h] using ih

/-- After `add_node` the view of the participant is its former view followed by the new record:
nothing is merged and nothing is dropped. -/
theorem GraphCache.view_add_node (gc : GraphCache) (pid : rmw_gid_t) (name namespace_ : String) :
    (gc.add_node pid name namespace_).1.view pid = gc.view pid ++ [node_record name namespace_] := by
  simp [GraphCache.add_node, GraphCache.view, GraphCache.find_setEntry, node_record]

/-- The message `add_node` returns is the full view it has just stored. -/
theorem GraphCache.msg_add_node (gc : GraphCache) (pid : rmw_gid_t) (name namespace_ : String) :
    (gc.add_node pid name namespace_).2 =
      { gid := pid, node_entities_info_seq := (gc.add_node pid name namespace_).1.view pid } := by
  simp [GraphCache.add_node, GraphCache.view, GraphCache.find_setEntry]

/-! ### Shapes of the two node functions -/

/-- A call of `__rmw_create_node` that reaches the update section, in full. -/
theorem rmw_create_node_update (env : Env) (ctx : Context) (identifier name namespace_ : String)
    (hname : env.rmw_validate_node_name name = (RMW_RET_OK, RMW_NODE_NAME_VALID))
    (hns : env.rmw_validate_namespace namespace_ = (RMW_RET_OK, RMW_NAMESPACE_VALID))
    (hnode : env.zero_allocate_ok = true)
    (hcopy1 : env.strdup_name_ok = true)
    (hcopy2 : env.strdup_namespace_ok = true) :
    rmw_create_node env ctx identifier name namespace_ =
      if env.rmw_publish (ctx.graph_cache.add_node ctx.gid name namespace_).2 = RMW_RET_OK then
        (some { addr := ctx.allocator.next,
                implementation_identifier := ctx.implementation_identifier, data := none,
                name := some { addr := ctx.allocator.next + 1, chars := name },
                namespace_ := some { addr := ctx.allocator.next + 2, chars := namespace_ },
                context := some ctx.handle },
         { ctx with
            graph_cache := (ctx.graph_cache.add_node ctx.gid name namespace_).1,
            allocator :=
              { next := ctx.allocator.next + 3,
                live := (ctx.allocator.next + 2) :: (ctx.allocator.next + 1) ::
                  ctx.allocator.next :: ctx.allocator.live },
            trace := ctx.trace ++
              [Event.allocate ctx.allocator.next, Event.allocate (ctx.allocator.next + 1),
               Event.allocate (ctx.allocator.next + 2), Event.lock,
               Event.add_node ctx.gid name namespace_,
               Event.publish (ctx.graph_cache.add_node ctx.gid name namespace_).2,
               Event.unlock] })
      else
        (none,
         { ctx with
            graph_cache := (ctx.graph_cache.add_node ctx.gid name namespace_).1,
            allocator := { next := ctx.allocator.next + 3, live := ctx.allocator.live },
            trace := ctx.trace ++
              [Event.allocate ctx.allocator.next, Event.allocate (ctx.allocator.next + 1),
               Event.allocate (ctx.allocator.next + 2), Event.lock,
               Event.add_node ctx.gid name namespace_,
               Event.publish (ctx.graph_cache.add_node ctx.gid name namespace_).2,
               Event.unlock, Event.deallocate (ctx.allocator.next + 1),
               Event.deallocate (ctx.allocator.next + 2),
               Event.deallocate ctx.allocator.next] }) := by
  simp [rmw_create_node, hname, hns, hnode, hcopy1, hcopy2, Context.allocate, rcutils_strdup,
    RMW_RET_OK, RMW_NODE_NAME_VALID, RMW_NAMESPACE_VALID, Context.emit, cleanup_node,
    Context.deallocate, Nat.add_assoc]

/-- A call of `__rmw_destroy_node` on a node whose name and namespace are not null, in full. -/
theorem rmw_destroy_node_shape (env : Env) (ctx : Context) (identifier : String)
    (node : rmw_node_t) (name namespace_ : CString)
    (hname : node.name = some name) (hns : node.namespace_ = some namespace_) :
    rmw_destroy_node env ctx identifier node =
      if env.rmw_publish (ctx.graph_cache.remove_node ctx.gid name.chars namespace_.chars).2
          = RMW_RET_OK then
        some (RMW_RET_OK,
          { ctx with
            graph_cache := (ctx.graph_cache.remove_node ctx.gid name.chars namespace_.chars).1,
            allocator := { ctx.allocator with
              live := ((ctx.allocator.live.erase name.addr).erase namespace_.addr).erase node.addr },
            trace := ctx.trace ++
              [Event.lock, Event.remove_node ctx.gid name.chars namespace_.chars,
               Event.publish (ctx.graph_cache.remove_node ctx.gid name.chars namespace_.chars).2,
               Event.unlock, Event.deallocate name.addr, Event.deallocate namespace_.addr,
               Event.deallocate node.addr] })
      else
        some (env.rmw_publish (ctx.graph_cache.remove_node ctx.gid name.chars namespace_.chars).2,
          { ctx with
            graph_cache := (ctx.graph_cache.remove_node ctx.gid name.chars namespace_.chars).1,
            trace := ctx.trace ++
              [Event.lock, Event.remove_node ctx.gid name.chars namespace_.chars,
               Event.publish (ctx.graph_cache.remove_node ctx.gid name.chars namespace_.chars).2,
               Event.unlock] }) := by
  simp only [rmw_destroy_node, hname, hns]
  by_cases h : env.rmw_publish
      (ctx.graph_cache.remove_node ctx.gid name.chars namespace_.chars).2 = RMW_RET_OK
  · simp [h, Context.emit, Context.deallocate]
  · simp [h, Context.emit, Context.deallocate]

/-! ### Claims on node creation and destruction -/

/-- C1: for a valid name and namespace, when the node and both copies are allocated and the
publish call of `__rmw_create_node` returns a code other than `RMW_RET_OK`, the call returns
`nullptr` and leaves the graph cache in the state produced by `add_node(gid, name, namespace_)`:
the view of the local participant still ends with the added record, and `add_node` is the only
cache mutation the call made (no rollback, no second mutation). -/
theorem rmw_create_node_publish_failure_keeps_cache (env : Env) (ctx : Context)
    (identifier name namespace_ : String)
    (hname : env.rmw_validate_node_name name = (RMW_RET_OK, RMW_NODE_NAME_VALID))
    (hns : env.rmw_validate_namespace namespace_ = (RMW_RET_OK, RMW_NAMESPACE_VALID))
    (hnode : env.zero_allocate_ok = true)
    (hcopy1 : env.strdup_name_ok = true)
    (hcopy2 : env.strdup_namespace_ok = true)
    (hpub : env.rmw_publish (ctx.graph_cache.add_node ctx.gid name namespace_).2 ≠ RMW_RET_OK) :
    (rmw_create_node env ctx identifier name namespace_).1 = none ∧
    (rmw_create_node env ctx identifier name namespace_).2.graph_cache =
      (ctx.graph_cache.add_node ctx.gid name namespace_).1 ∧
    (rmw_create_node env ctx identifier name namespace_).2.graph_cache.view ctx.gid =
      ctx.graph_cache.view ctx.gid ++ [node_record name namespace_] ∧
    cache_mutations (new_events ctx.trace (rmw_create_node env ctx identifier name namespace_).2.trace)
      = [Event.add_node ctx.gid name namespace_] := by
  rw [rmw_create_node_update env ctx identifier name namespace_ hname hns hnode hcopy1 hcopy2,
    if_neg hpub]
  refine ⟨rfl, rfl, ?_, ?_⟩
  · exact GraphCache.view_add_node _ _ _ _
  · simp [new_events, cache_mutations]

/-- At `ctx0` a publish that returns `RMW_RET_ERROR` gives `nullptr`, and the cache holds the
node "talker" of "/". -/
theorem rmw_create_node_publish_failure_keeps_cache_witness :
    (rmw_create_node (envWith RMW_RET_ERROR) ctx0 "rmw_fastrtps_cpp" "talker" "/").1 = none ∧
    (rmw_create_node (envWith RMW_RET_ERROR) ctx0 "rmw_fastrtps_cpp" "talker" "/").2.graph_cache =
      { participants := [(7, [node_record "talker" "/"])] } :=
  ⟨(rmw_create_node_publish_failure_keeps_cache (envWith RMW_RET_ERROR) ctx0 "rmw_fastrtps_cpp"
      "talker" "/" rfl rfl rfl rfl rfl (by decide)).1,
   (rmw_create_node_publish_failure_keeps_cache (envWith RMW_RET_ERROR) ctx0 "rmw_fastrtps_cpp"
      "talker" "/" rfl rfl rfl rfl rfl (by decide)).2.1.trans (by decide)⟩

/-- C2: in every call of `__rmw_create_node` that reaches the update section, the events of the
call are some allocations, then `lock`, `add_node(gid, name, namespace_)`, `publish` of exactly
the message that `add_node` returned, `unlock`, then at most deallocations: one cache mutation,
followed by one publish of its result.  Likewise `__rmw_destroy_node` publishes, once, exactly
the message returned by its single `remove_node(gid, node->name, node->namespace_)`. -/
theorem update_section_publishes_mutation_result (env : Env) (ctx : Context)
    (identifier name namespace_ : String) (node : rmw_node_t) (node_name node_namespace : CString)
    (hname : env.rmw_validate_node_name name = (RMW_RET_OK, RMW_NODE_NAME_VALID))
    (hns : env.rmw_validate_namespace namespace_ = (RMW_RET_OK, RMW_NAMESPACE_VALID))
    (hnode : env.zero_allocate_ok = true)
    (hcopy1 : env.strdup_name_ok = true)
    (hcopy2 : env.strdup_namespace_ok = true)
    (hnn : node.name = some node_name) (hnns : node.namespace_ = some node_namespace) :
    (∃ pre post : List Event,
      new_events ctx.trace (rmw_create_node env ctx identifier name namespace_).2.trace =
        pre ++ [Event.lock, Event.add_node ctx.gid name namespace_,
                Event.publish (ctx.graph_cache.add_node ctx.gid name namespace_).2,
                Event.unlock] ++ post ∧
      update_events pre = [] ∧ update_events post = []) ∧
    (∃ ret ctx' post,
      rmw_destroy_node env ctx identifier node = some (ret, ctx') ∧
      new_events ctx.trace ctx'.trace =
        [Event.lock, Event.remove_node ctx.gid node_name.chars node_namespace.chars,
         Event.publish
           (ctx.graph_cache.remove_node ctx.gid node_name.chars node_namespace.chars).2,
         Event.unlock] ++ post ∧
      update_events post = []) := by
  constructor
  · rw [rmw_create_node_update env ctx identifier name namespace_ hname hns hnode hcopy1 hcopy2]
    by_cases hpub :
        env.rmw_publish (ctx.graph_cache.add_node ctx.gid name namespace_).2 = RMW_RET_OK
    · rw [if_pos hpub]
      exact ⟨[Event.allocate ctx.allocator.next, Event.allocate (ctx.allocator.next + 1),
              Event.allocate (ctx.allocator.next + 2)], [],
        by simp [new_events], by simp [update_events], by simp [update_events]⟩
    · rw [if_neg hpub]
      exact ⟨[Event.allocate ctx.allocator.next, Event.allocate (ctx.allocator.next + 1),
              Event.allocate (ctx.allocator.next + 2)],
             [Event.deallocate (ctx.allocator.next + 1), Event.deallocate (ctx.allocator.next + 2),
              Event.deallocate ctx.allocator.next],
        by simp [new_events], by simp [update_events], by simp [update_events]⟩
  · rw [rmw_destroy_node_shape env ctx identifier node node_name node_namespace hnn hnns]
    by_cases hpub : env.rmw_publish
        (ctx.graph_cache.remove_node ctx.gid node_name.chars node_namespace.chars).2 = RMW_RET_OK
    · rw [if_pos hpub]
      exact ⟨_, _, [Event.deallocate node_name.addr, Event.deallocate node_namespace.addr,
                    Event.deallocate node.addr],
        rfl, by simp [new_events], by simp [update_events]⟩
    · rw [if_neg hpub]
      exact ⟨_, _, [], rfl, by simp [new_events], by simp [update_events]⟩

/-- At `ctx0` the call for "talker" in "/" makes one `add_node` and then publishes the view
with that one node. -/
theorem update_section_publishes_mutation_result_witness :
    update_events (rmw_create_node (envWith RMW_RET_OK) ctx0 "rmw_fastrtps_cpp" "talker" "/").2.trace
      = [Event.add_node 7 "talker" "/",
         Event.publish { gid := 7, node_entities_info_seq := [node_record "talker" "/"] }] ∧
    ((∃ pre post : List Event,
      new_events ctx0.trace
          (rmw_create_node (envWith RMW_RET_OK) ctx0 "rmw_fastrtps_cpp" "talker" "/").2.trace =
        pre ++ [Event.lock, Event.add_node ctx0.gid "talker" "/",
                Event.publish (ctx0.graph_cache.add_node ctx0.gid "talker" "/").2,
                Event.unlock] ++ post ∧
      update_events pre = [] ∧ update_events post = []) ∧
    (∃ ret ctx' post,
      rmw_destroy_node (envWith RMW_RET_OK) ctx0 "rmw_fastrtps_cpp" node0 = some (ret, ctx') ∧
      new_events ctx0.trace ctx'.trace =
        [Event.lock, Event.remove_node ctx0.gid "talker" "/",
         Event.publish (ctx0.graph_cache.remove_node ctx0.gid "talker" "/").2,
         Event.unlock] ++ post ∧
      update_events post = [])) :=
  ⟨by decide,
   update_section_publishes_mutation_result (envWith RMW_RET_OK) ctx0 "rmw_fastrtps_cpp"
     "talker" "/" node0 { addr := 101, chars := "talker" } { addr := 102, chars := "/" }
     rfl rfl rfl rfl rfl rfl rfl⟩

/-- C3: when validation of the node name or of the namespace does not succeed (the validator
returns a code other than `RMW_RET_OK`, or a result other than valid), `__rmw_create_node`
returns `nullptr` and the context is exactly as before the call: `add_node` was not called, the
graph cache is unchanged, nothing was published and nothing was allocated. -/
theorem rmw_create_node_rejects_invalid_names (env : Env) (ctx : Context)
    (identifier name namespace_ : String)
    (h : (env.rmw_validate_node_name name).1 ≠ RMW_RET_OK ∨
         (env.rmw_validate_node_name name).2 ≠ RMW_NODE_NAME_VALID ∨
         (env.rmw_validate_namespace namespace_).1 ≠ RMW_RET_OK ∨
         (env.rmw_validate_namespace namespace_).2 ≠ RMW_NAMESPACE_VALID) :
    rmw_create_node env ctx identifier name namespace_ = (none, ctx) := by
  unfold rmw_create_node
  rcases h1 : env.rmw_validate_node_name name with ⟨r1, v1⟩
  rcases h2 : env.rmw_validate_namespace namespace_ with ⟨r2, v2⟩
  rw [h1, h2] at h
  simp only at h ⊢
  by_cases c1 : r1 ≠ RMW_RET_OK ∨ v1 ≠ RMW_NODE_NAME_VALID
  · rw [if_pos c1]
  · rw [if_neg c1]
    have c2 : r2 ≠ RMW_RET_OK ∨ v2 ≠ RMW_NAMESPACE_VALID := by
      rcases h with h | h | h | h
      · exact absurd (Or.inl h) c1
      · exact absurd (Or.inr h) c1
      · exact Or.inl h
      · exact Or.inr h
    rw [if_pos c2]

/-- A name the validator reports as invalid leaves `ctx0` as it is. -/
theorem rmw_create_node_rejects_invalid_names_witness :
    rmw_create_node (envInvalidName 4) ctx0 "rmw_fastrtps_cpp" "bad name" "/" = (none, ctx0) :=
  rmw_create_node_rejects_invalid_names (envInvalidName 4) ctx0 "rmw_fastrtps_cpp" "bad name" "/"
    (Or.inr (Or.inl (by decide)))

/-- C4: on a node whose name and namespace are not null, `__rmw_destroy_node` returns exactly the
return code of its publish call, whatever that code is.  The call publishes once (no retry).
When the publish fails nothing is deallocated: the allocator is as before and the call made no
`deallocate`.  When it succeeds the name, the namespace and the node are deallocated, in that
order, and nothing else is. -/
theorem rmw_destroy_node_returns_publish_code (env : Env) (ctx : Context) (identifier : String)
    (node : rmw_node_t) (name namespace_ : CString)
    (hname : node.name = some name) (hns : node.namespace_ = some namespace_) :
    ∃ ctx' : Context,
      rmw_destroy_node env ctx identifier node =
        some (env.rmw_publish
          (ctx.graph_cache.remove_node ctx.gid name.chars namespace_.chars).2, ctx') ∧
      (update_events (new_events ctx.trace ctx'.trace)).count
        (Event.publish (ctx.graph_cache.remove_node ctx.gid name.chars namespace_.chars).2) = 1 ∧
      (update_events (new_events ctx.trace ctx'.trace)).length = 2 ∧
      (env.rmw_publish (ctx.graph_cache.remove_node ctx.gid name.chars namespace_.chars).2
          ≠ RMW_RET_OK →
        ctx'.allocator = ctx.allocator ∧
        new_events ctx.trace ctx'.trace =
          [Event.lock, Event.remove_node ctx.gid name.chars namespace_.chars,
           Event.publish (ctx.graph_cache.remove_node ctx.gid name.chars namespace_.chars).2,
           Event.unlock]) ∧
      (env.rmw_publish (ctx.graph_cache.remove_node ctx.gid name.chars namespace_.chars).2
          = RMW_RET_OK →
        ctx'.allocator.live =
          ((ctx.allocator.live.erase name.addr).erase namespace_.addr).erase node.addr ∧
        new_events ctx.trace ctx'.trace =
          [Event.lock, Event.remove_node ctx.gid name.chars namespace_.chars,
           Event.publish (ctx.graph_cache.remove_node ctx.gid name.chars namespace_.chars).2,
           Event.unlock, Event.deallocate name.addr, Event.deallocate namespace_.addr,
           Event.deallocate node.addr]) := by
  rw [rmw_destroy_node_shape env ctx identifier node name namespace_ hname hns]
  by_cases hpub : env.rmw_publish
      (ctx.graph_cache.remove_node ctx.gid name.chars namespace_.chars).2 = RMW_RET_OK
  · rw [if_pos hpub]
    refine ⟨_, by rw [hpub], ?_, ?_, fun h => absurd hpub h, fun _ => ⟨rfl, ?_⟩⟩
    · simp [new_events, update_events]
    · simp [new_events, update_events]
    · simp [new_events]
  · rw [if_neg hpub]
    refine ⟨_, rfl, ?_, ?_, fun _ => ⟨rfl, ?_⟩, fun h => absurd h hpub⟩
    · simp [new_events, update_events]
    · simp [new_events, update_events]
    · simp [new_events]

/-- At `ctx1`, where `node0` is alive, a publish that times out makes `__rmw_destroy_node`
return `RMW_RET_TIMEOUT` with all three blocks still allocated. -/
theorem rmw_destroy_node_returns_publish_code_witness :
    ∃ ctx' : Context,
      rmw_destroy_node (envWith RMW_RET_TIMEOUT) ctx1 "rmw_fastrtps_cpp" node0 =
        some (RMW_RET_TIMEOUT, ctx') ∧ ctx'.allocator.live = [102, 101, 100] := by
  obtain ⟨ctx', h, _, _, hfail, _⟩ :=
    rmw_destroy_node_returns_publish_code (envWith RMW_RET_TIMEOUT) ctx1 "rmw_fastrtps_cpp" node0
      { addr := 101, chars := "talker" } { addr := 102, chars := "/" } rfl rfl
  exact ⟨ctx', h, by rw [(hfail (by decide)).1]; decide⟩

/-- C5: once the node structure is allocated, every path of `__rmw_create_node` that returns
`nullptr` (name copy refused, namespace copy refused, publish failed) deallocates the node and
each copy that was made exactly once, and leaves the set of live blocks as it was before the
call.  On the success path nothing is deallocated, the three blocks are live, and the
returned node holds a copy of `name` and a copy of `namespace_`. -/
theorem rmw_create_node_releases_on_failure (env : Env) (ctx : Context)
    (identifier name namespace_ : String)
    (hname : env.rmw_validate_node_name name = (RMW_RET_OK, RMW_NODE_NAME_VALID))
    (hns : env.rmw_validate_namespace namespace_ = (RMW_RET_OK, RMW_NAMESPACE_VALID))
    (hnode : env.zero_allocate_ok = true) :
    (env.strdup_name_ok = false →
      (rmw_create_node env ctx identifier name namespace_).1 = none ∧
      new_events ctx.trace (rmw_create_node env ctx identifier name namespace_).2.trace =
        [Event.allocate ctx.allocator.next, Event.deallocate ctx.allocator.next] ∧
      (rmw_create_node env ctx identifier name namespace_).2.allocator.live = ctx.allocator.live) ∧
    (env.strdup_name_ok = true → env.strdup_namespace_ok = false →
      (rmw_create_node env ctx identifier name namespace_).1 = none ∧
      new_events ctx.trace (rmw_create_node env ctx identifier name namespace_).2.trace =
        [Event.allocate ctx.allocator.next, Event.allocate (ctx.allocator.next + 1),
         Event.deallocate (ctx.allocator.next + 1), Event.deallocate ctx.allocator.next] ∧
      (rmw_create_node env ctx identifier name namespace_).2.allocator.live = ctx.allocator.live) ∧
    (env.strdup_name_ok = true → env.strdup_namespace_ok = true →
      env.rmw_publish (ctx.graph_cache.add_node ctx.gid name namespace_).2 ≠ RMW_RET_OK →
      (rmw_create_node env ctx identifier name namespace_).1 = none ∧
      (∀ a ∈ [ctx.allocator.next, ctx.allocator.next + 1, ctx.allocator.next + 2],
        (new_events ctx.trace (rmw_create_node env ctx identifier name namespace_).2.trace).count
          (Event.allocate a) = 1 ∧
        (new_events ctx.trace (rmw_create_node env ctx identifier name namespace_).2.trace).count
          (Event.deallocate a) = 1) ∧
      (rmw_create_node env ctx identifier name namespace_).2.allocator.live = ctx.allocator.live) ∧
    (env.strdup_name_ok = true → env.strdup_namespace_ok = true →
      env.rmw_publish (ctx.graph_cache.add_node ctx.gid name namespace_).2 = RMW_RET_OK →
      (∃ node : rmw_node_t,
        (rmw_create_node env ctx identifier name namespace_).1 = some node ∧
        node.addr = ctx.allocator.next ∧
        node.name = some { addr := ctx.allocator.next + 1, chars := name } ∧
        node.namespace_ = some { addr := ctx.allocator.next + 2, chars := namespace_ }) ∧
      (∀ a, Event.deallocate a ∉
        new_events ctx.trace (rmw_create_node env ctx identifier name namespace_).2.trace) ∧
      (rmw_create_node env ctx identifier name namespace_).2.allocator.live =
        (ctx.allocator.next + 2) :: (ctx.allocator.next + 1) :: ctx.allocator.next ::
          ctx.allocator.live) := by
  refine ⟨fun h1 => ?_, fun h1 h2 => ?_, fun h1 h2 hpub => ?_, fun h1 h2 hpub => ?_⟩
  · simp [rmw_create_node, hname, hns, hnode, h1, Context.allocate, rcutils_strdup, RMW_RET_OK,
      RMW_NODE_NAME_VALID, RMW_NAMESPACE_VALID, cleanup_node, Context.deallocate, new_events]
  · simp [rmw_create_node, hname, hns, hnode, h1, h2, Context.allocate, rcutils_strdup,
      RMW_RET_OK, RMW_NODE_NAME_VALID, RMW_NAMESPACE_VALID, cleanup_node, Context.deallocate,
      new_events]
  · rw [rmw_create_node_update env ctx identifier name namespace_ hname hns hnode h1 h2,
      if_neg hpub]
    refine ⟨rfl, ?_, rfl⟩
    intro a ha
    simp only [List.mem_cons, List.mem_singleton, List.not_mem_nil, or_false] at ha
    rcases ha with rfl | rfl | rfl <;> simp [new_events, List.count_cons]
  · rw [rmw_create_node_update env ctx identifier name namespace_ hname hns hnode h1 h2,
      if_pos hpub]
    exact ⟨⟨_, rfl, rfl, rfl, rfl⟩, by simp [new_events], rfl⟩

/-- At `ctx0` a failed publish leaves no block allocated, and each of the blocks 100, 101, 102
was allocated once and deallocated once. -/
theorem rmw_create_node_releases_on_failure_witness :
    (rmw_create_node (envWith RMW_RET_ERROR) ctx0 "rmw_fastrtps_cpp" "talker" "/").1 = none ∧
    (rmw_create_node (envWith RMW_RET_ERROR) ctx0 "rmw_fastrtps_cpp" "talker" "/").2.allocator.live
      = [] :=
  ⟨((rmw_create_node_releases_on_failure (envWith RMW_RET_ERROR) ctx0 "rmw_fastrtps_cpp"
      "talker" "/" rfl rfl rfl).2.2.1 rfl rfl (by decide)).1,
   ((rmw_create_node_releases_on_failure (envWith RMW_RET_ERROR) ctx0 "rmw_fastrtps_cpp"
      "talker" "/" rfl rfl rfl).2.2.1 rfl rfl (by decide)).2.2⟩

/-! ### Participant construction -/

/-- C6, the claim fails: when `Domain::createParticipant` fails after the guard condition and the
listener were created, `__create_participant` returns `nullptr` having released neither; and
when the allocation of `CustomParticipantInfo` fails, the three sub-resources are released in
the order guard condition, listener, participant, which is the order of acquisition and not its
reverse. -/
theorem create_participant_release_counterexample :
    ((create_participant envCreateParticipantFails false).1 = none ∧
      acquired (create_participant envCreateParticipantFails false).2 =
        [Resource.graph_guard_condition, Resource.listener] ∧
      released (create_participant envCreateParticipantFails false).2 = []) ∧
    ((create_participant envParticipantInfoFails false).1 = none ∧
      acquired (create_participant envParticipantInfoFails false).2 =
        [Resource.graph_guard_condition, Resource.listener, Resource.participant] ∧
      released (create_participant envParticipantInfoFails false).2 =
        [Resource.graph_guard_condition, Resource.listener, Resource.participant] ∧
      released (create_participant envParticipantInfoFails false).2 ≠
        (acquired (create_participant envParticipantInfoFails false).2).reverse) := by
  decide

/-- C6, amended: when `__create_participant` fails at the creation of the guard condition, at the
allocation of the listener or at the allocation of `CustomParticipantInfo` (the failures that
jump to `fail:`), it returns `nullptr` and the sub-resources released are exactly the ones
acquired so far, each once, in the order of acquisition: guard condition, listener,
participant. -/
theorem create_participant_fail_releases_acquired (env : ParticipantEnv)
    (leave_middleware_default_qos : Bool)
    (h : env.create_guard_condition_ok = false ∨ env.new_listener_ok = false ∨
         (env.createParticipant_ok = true ∧ env.new_participant_info_ok = false)) :
    (create_participant env leave_middleware_default_qos).1 = none ∧
    released (create_participant env leave_middleware_default_qos).2 =
      acquired (create_participant env leave_middleware_default_qos).2 ∧
    (acquired (create_participant env leave_middleware_default_qos).2).Nodup ∧
    (acquired (create_participant env leave_middleware_default_qos).2 <+:
      [Resource.graph_guard_condition, Resource.listener, Resource.participant]) := by
  obtain ⟨g, l, p, i, r⟩ := env
  cases g <;> cases l <;> cases p <;> cases i <;>
    simp [create_participant, create_participant_fail, released, acquired] at h ⊢

/-- When only the allocation of `CustomParticipantInfo` fails, all three sub-resources are
released, in the order of acquisition. -/
theorem create_participant_fail_releases_acquired_witness :
    (create_participant envParticipantInfoFails true).1 = none ∧
    released (create_participant envParticipantInfoFails true).2 =
      acquired (create_participant envParticipantInfoFails true).2 ∧
    (acquired (create_participant envParticipantInfoFails true).2).Nodup ∧
    (acquired (create_participant envParticipantInfoFails true).2 <+:
      [Resource.graph_guard_condition, Resource.listener, Resource.participant]) :=
  create_participant_fail_releases_acquired envParticipantInfoFails true
    (Or.inr (Or.inr ⟨rfl, rfl⟩))

/-! ### Publish failures as seen by the caller -/

/-- C8: `cast_error_dds_to_rmw` is a total mapping of transport return codes.  It maps
`RETCODE_OK` to `RMW_RET_OK`, `RETCODE_ERROR` to `RMW_RET_ERROR`, `RETCODE_TIMEOUT` to
`RMW_RET_TIMEOUT`, `RETCODE_UNSUPPORTED` to `RMW_RET_UNSUPPORTED`, `RETCODE_BAD_PARAMETER` to
`RMW_RET_INVALID_ARGUMENT`, `RETCODE_OUT_OF_RESOURCES` to `RMW_RET_BAD_ALLOC`, and every other
code to `RMW_RET_ERROR`.  Its result is `RMW_RET_OK` if and only if the input is `RETCODE_OK`,
and the six listed codes have six pairwise distinct results. -/
theorem cast_error_dds_to_rmw_mapping :
    (∀ code : ReturnCode_t, ∃ r : rmw_ret_t, cast_error_dds_to_rmw code = r) ∧
    cast_error_dds_to_rmw ReturnCode_t.RETCODE_OK = RMW_RET_OK ∧
    cast_error_dds_to_rmw ReturnCode_t.RETCODE_ERROR = RMW_RET_ERROR ∧
    cast_error_dds_to_rmw ReturnCode_t.RETCODE_TIMEOUT = RMW_RET_TIMEOUT ∧
    cast_error_dds_to_rmw ReturnCode_t.RETCODE_UNSUPPORTED = RMW_RET_UNSUPPORTED ∧
    cast_error_dds_to_rmw ReturnCode_t.RETCODE_BAD_PARAMETER = RMW_RET_INVALID_ARGUMENT ∧
    cast_error_dds_to_rmw ReturnCode_t.RETCODE_OUT_OF_RESOURCES = RMW_RET_BAD_ALLOC ∧
    (∀ code : ReturnCode_t,
      code ∉ [ReturnCode_t.RETCODE_OK, ReturnCode_t.RETCODE_ERROR, ReturnCode_t.RETCODE_TIMEOUT,
              ReturnCode_t.RETCODE_UNSUPPORTED, ReturnCode_t.RETCODE_BAD_PARAMETER,
              ReturnCode_t.RETCODE_OUT_OF_RESOURCES] →
      cast_error_dds_to_rmw code = RMW_RET_ERROR) ∧
    (∀ code : ReturnCode_t,
      cast_error_dds_to_rmw code = RMW_RET_OK ↔ code = ReturnCode_t.RETCODE_OK) ∧
    ([ReturnCode_t.RETCODE_OK, ReturnCode_t.RETCODE_ERROR, ReturnCode_t.RETCODE_TIMEOUT,
      ReturnCode_t.RETCODE_UNSUPPORTED, ReturnCode_t.RETCODE_BAD_PARAMETER,
      ReturnCode_t.RETCODE_OUT_OF_RESOURCES].map cast_error_dds_to_rmw).Pairwise (· ≠ ·) := by
  refine ⟨fun code => ⟨_, rfl⟩, by decide, by decide, by decide, by decide, by decide, by decide,
    ?_, ?_, by decide⟩
  · intro code h
    simp only [List.mem_cons, List.mem_singleton, List.not_mem_nil, or_false, not_or] at h
    obtain ⟨h0, h1, h2, h3, h4, h5⟩ := h
    simp [cast_error_dds_to_rmw, h0, h1, h2, h3, h4, h5]
  · intro code
    constructor
    · intro h
      unfold cast_error_dds_to_rmw at h
      split_ifs at h with h0 h1 h2 h3 h4 h5
      · exact h0
      all_goals exact absurd h (by decide)
    · rintro rfl
      decide

/-! ### Duplicates and the change signal -/

/-- C9: node creation does not enforce uniqueness of name and namespace.  For every valid name
and namespace and every prior context, whatever its graph cache already holds, a call whose
allocations and publish succeed returns a node after exactly one `add_node`.  Two successive
such calls with the same name and namespace make two `add_node` calls, append two records for
that name and namespace to the view of the local participant, and return two nodes at distinct
addresses. -/
theorem rmw_create_node_allows_duplicates (env1 env2 : Env) (ctx : Context)
    (identifier name namespace_ : String)
    (hname1 : env1.rmw_validate_node_name name = (RMW_RET_OK, RMW_NODE_NAME_VALID))
    (hns1 : env1.rmw_validate_namespace namespace_ = (RMW_RET_OK, RMW_NAMESPACE_VALID))
    (hnode1 : env1.zero_allocate_ok = true)
    (hcopy11 : env1.strdup_name_ok = true)
    (hcopy12 : env1.strdup_namespace_ok = true)
    (hpub1 : env1.rmw_publish (ctx.graph_cache.add_node ctx.gid name namespace_).2 = RMW_RET_OK)
    (hname2 : env2.rmw_validate_node_name name = (RMW_RET_OK, RMW_NODE_NAME_VALID))
    (hns2 : env2.rmw_validate_namespace namespace_ = (RMW_RET_OK, RMW_NAMESPACE_VALID))
    (hnode2 : env2.zero_allocate_ok = true)
    (hcopy21 : env2.strdup_name_ok = true)
    (hcopy22 : env2.strdup_namespace_ok = true)
    (hpub2 : env2.rmw_publish
      ((ctx.graph_cache.add_node ctx.gid name namespace_).1.add_node ctx.gid name namespace_).2
        = RMW_RET_OK) :
    ∃ (node1 node2 : rmw_node_t) (ctx1 ctx2 : Context),
      rmw_create_node env1 ctx identifier name namespace_ = (some node1, ctx1) ∧
      rmw_create_node env2 ctx1 identifier name namespace_ = (some node2, ctx2) ∧
      cache_mutations (new_events ctx.trace ctx1.trace) = [Event.add_node ctx.gid name namespace_] ∧
      cache_mutations (new_events ctx.trace ctx2.trace) =
        [Event.add_node ctx.gid name namespace_, Event.add_node ctx.gid name namespace_] ∧
      ctx2.graph_cache.view ctx.gid =
        ctx.graph_cache.view ctx.gid ++ [node_record name namespace_, node_record name namespace_] ∧
      node1.addr ≠ node2.addr ∧ node1 ≠ node2 ∧
      node1.addr ∈ ctx2.allocator.live ∧ node2.addr ∈ ctx2.allocator.live := by
  have e1 := rmw_create_node_update env1 ctx identifier name namespace_ hname1 hns1 hnode1
    hcopy11 hcopy12
  rw [if_pos hpub1] at e1
  have e2 := rmw_create_node_update env2 (rmw_create_node env1 ctx identifier name namespace_).2
    identifier name namespace_ hname2 hns2 hnode2 hcopy21 hcopy22
  rw [e1] at e2
  dsimp only at e2
  rw [if_pos hpub2] at e2
  refine ⟨_, _, _, _, e1, e2, ?_, ?_, ?_, ?_, ?_, ?_, ?_⟩
  · simp [new_events, cache_mutations]
  · simp [new_events, cache_mutations]
  · simp [GraphCache.view_add_node]
  · simp
  · intro h
    have := congrArg rmw_node_t.addr h
    simp at this
  · simp
  · simp

/-- At `ctx0` two calls for "talker" in "/" return nodes at the addresses 100 and 103, and the
local participant has two records for that name. -/
theorem rmw_create_node_allows_duplicates_witness :
    ∃ (node1 node2 : rmw_node_t) (ctx1 ctx2 : Context),
      rmw_create_node (envWith RMW_RET_OK) ctx0 "rmw_fastrtps_cpp" "talker" "/"
        = (some node1, ctx1) ∧
      rmw_create_node (envWith RMW_RET_OK) ctx1 "rmw_fastrtps_cpp" "talker" "/"
        = (some node2, ctx2) ∧
      ctx2.graph_cache.view 7 = [node_record "talker" "/", node_record "talker" "/"] ∧
      node1.addr ≠ node2.addr := by
  obtain ⟨node1, node2, c1, c2, h1, h2, _, _, hview, hne, _⟩ :=
    rmw_create_node_allows_duplicates (envWith RMW_RET_OK) (envWith RMW_RET_OK) ctx0
      "rmw_fastrtps_cpp" "talker" "/" rfl rfl rfl rfl rfl rfl rfl rfl rfl rfl rfl rfl
  exact ⟨node1, node2, c1, c2, h1, h2, hview, hne⟩

/-- Only `RETCODE_OK` is mapped to `RMW_RET_OK`. -/
theorem cast_error_dds_to_rmw_ne_ok (code : ReturnCode_t)
    (h : code ≠ ReturnCode_t.RETCODE_OK) : cast_error_dds_to_rmw code ≠ RMW_RET_OK := by
  unfold cast_error_dds_to_rmw
  split_ifs <;> first | contradiction | decide

/-- C12: with fault injection disabled, `destroy_subscription` returns `RMW_RET_OK` if and only
if the data pointer of the subscription is not null and `delete_datareader` returns
`RETCODE_OK`.  When `delete_datareader` returns another code, the function returns
`cast_error_dds_to_rmw` of that code, which is not `RMW_RET_OK`, and releases nothing.  When the
data pointer is null it returns `RMW_RET_INVALID_ARGUMENT` and frees the topic name and the
subscription handle, and nothing else. -/
theorem destroy_subscription_result (env : SubscriptionEnv) (identifier : String)
    (subscription : rmw_subscription_t) (hfault : env.fault_injection_fail_now = false) :
    ((destroy_subscription env identifier subscription).1 = RMW_RET_OK ↔
      ∃ info, subscription.data = some info ∧
        env.delete_datareader info.subscriber_ = ReturnCode_t.RETCODE_OK) ∧
    (∀ info, subscription.data = some info →
      env.delete_datareader info.subscriber_ ≠ ReturnCode_t.RETCODE_OK →
      destroy_subscription env identifier subscription =
        (cast_error_dds_to_rmw (env.delete_datareader info.subscriber_), []) ∧
      cast_error_dds_to_rmw (env.delete_datareader info.subscriber_) ≠ RMW_RET_OK) ∧
    (subscription.data = none →
      destroy_subscription env identifier subscription =
        (RMW_RET_INVALID_ARGUMENT,
          [SubscriptionEvent.free_topic_name, SubscriptionEvent.subscription_free])) := by
  refine ⟨?_, ?_, ?_⟩
  · cases hd : subscription.data with
    | none =>
      simp [destroy_subscription, destroy_subscription_completion, hd, hfault,
        RMW_RET_INVALID_ARGUMENT, RMW_RET_OK]
    | some info =>
      by_cases hc : env.delete_datareader info.subscriber_ = ReturnCode_t.RETCODE_OK
      · simp [destroy_subscription, destroy_subscription_completion, hd, hfault, hc]
      · have hne := cast_error_dds_to_rmw_ne_ok _ hc
        simp [destroy_subscription, hd, hc, hne]
  · intro info hd hc
    exact ⟨by simp [destroy_subscription, hd, hc], cast_error_dds_to_rmw_ne_ok _ hc⟩
  · intro hd
    simp [destroy_subscription, destroy_subscription_completion, hd, hfault]

/-- A data reader that cannot be deleted (`RETCODE_PRECONDITION_NOT_MET`) makes
`destroy_subscription` return `RMW_RET_ERROR` with nothing released. -/
theorem destroy_subscription_result_witness :
    destroy_subscription (subscriptionEnvWith ReturnCode_t.RETCODE_PRECONDITION_NOT_MET)
      "rmw_fastrtps_cpp" subscription0 = (RMW_RET_ERROR, []) :=
  ((destroy_subscription_result (subscriptionEnvWith ReturnCode_t.RETCODE_PRECONDITION_NOT_MET)
    "rmw_fastrtps_cpp" subscription0 rfl).2.1
      { subscriber_ := 40, listener_ := some 41, type_support_ := some 42 } rfl
      (by decide)).1

/-! ### The user data of the participant -/

/-- The phase after one more event is the next phase of the phase before it. -/
theorem LockPhase.run_append (p : LockPhase) (trace : List (Nat × Event)) (e : Nat × Event) :
    LockPhase.run p (trace ++ [e]) = (LockPhase.run p trace).bind (fun q => q.next e) := by
  induction trace generalizing p with
  | nil =>
    simp only [List.nil_append, LockPhase.run, Option.some_bind]
    cases p.next e <;> rfl
  | cons a rest ih =>
    simp only [List.cons_append, LockPhase.run]
    cases p.next a with
    | none => rfl
    | some q => exact ih q

/-- Before any step the state agrees with its empty record. -/
theorem update_start_consistent (ctx : Context) : (update_start ctx).consistent := by
  refine ⟨rfl, fun t => ?_⟩
  simp [update_start, UpdatePoint.in_section]

/-- A step of any thread keeps the state in agreement with the record. -/
theorem update_step_consistent (publish : Nat → ParticipantEntitiesInfo → rmw_ret_t)
    (mutation : Nat → Mutation) (s : UpdateState) (t : Nat) (h : s.consistent) :
    (update_step publish mutation s t).consistent := by
  obtain ⟨hrun, hown⟩ := h
  have hother : ∀ u, u ≠ t → s.node_update_mutex = some t → (s.point u).in_section = false := by
    intro u hu hm
    cases hin : (s.point u).in_section with
    | false => rfl
    | true =>
      have := (hown u).1 hin
      rw [hm] at this
      exact absurd (Option.some.inj this).symm hu
  unfold update_step
  cases hp : s.point t with
  | before_lock =>
    cases hm : s.node_update_mutex with
    | some o => exact ⟨hrun, hown⟩
    | none =>
      refine ⟨?_, fun u => ?_⟩
      · simp [LockPhase.run_append, hrun, UpdateState.phase, hm, LockPhase.next]
      · by_cases hu : u = t
        · subst hu
          simp [UpdatePoint.in_section]
        · have := hown u
          rw [hm] at this
          simp [Function.update_noteq hu, this, Ne.symm hu]
  | holding =>
    have hm : s.node_update_mutex = some t := (hown t).1 (by rw [hp]; rfl)
    have hph : s.phase = LockPhase.locked t := by simp [UpdateState.phase, hm, hp]
    refine ⟨?_, fun u => ?_⟩
    · rw [hph] at hrun
      cases hmu : mutation t <;>
        simp [LockPhase.run_append, hrun, UpdateState.phase, hm, LockPhase.next, Mutation.event,
          hmu]
    · by_cases hu : u = t
      · subst hu
        simp [UpdatePoint.in_section, hm]
      · simp [Function.update_noteq hu, hown u]
  | mutated msg =>
    have hm : s.node_update_mutex = some t := (hown t).1 (by rw [hp]; rfl)
    have hph : s.phase = LockPhase.mutated t := by simp [UpdateState.phase, hm, hp]
    refine ⟨?_, fun u => ?_⟩
    · rw [hph] at hrun
      simp [LockPhase.run_append, hrun, UpdateState.phase, hm, LockPhase.next]
    · by_cases hu : u = t
      · subst hu
        simp [UpdatePoint.in_section, hm]
      · simp [Function.update_noteq hu, hown u]
  | published ret =>
    have hm : s.node_update_mutex = some t := (hown t).1 (by rw [hp]; rfl)
    have hph : s.phase = LockPhase.published t := by simp [UpdateState.phase, hm, hp]
    refine ⟨?_, fun u => ?_⟩
    · rw [hph] at hrun
      simp [LockPhase.run_append, hrun, UpdateState.phase, LockPhase.next]
    · by_cases hu : u = t
      · subst hu
        simp [UpdatePoint.in_section]
      · simp [Function.update_noteq hu, hother u hu hm]
  | after_unlock => exact ⟨hrun, hown⟩

/-- Every schedule keeps the state in agreement with the record. -/
theorem update_run_consistent (publish : Nat → ParticipantEntitiesInfo → rmw_ret_t)
    (mutation : Nat → Mutation) (schedule : List Nat) (s : UpdateState) (h : s.consistent) :
    (update_run publish mutation s schedule).consistent := by
  induction schedule generalizing s with
  | nil => exact h
  | cons t rest ih =>
    exact ih (update_step publish mutation s t) (update_step_consistent publish mutation s t h)

/-- An event that is neither a mutation nor a publish is not among the updates. -/
theorem thread_updates_skip (rest : List (Nat × Event)) (u : Nat) (f : Event)
    (h1 : f.is_mutation = false) (h2 : f.is_publish = false) :
    thread_updates ((u, f) :: rest) = thread_updates rest := by
  cases f <;> simp [thread_updates, Event.is_mutation, Event.is_publish] at h1 h2 ⊢

/-- A mutation or a publish is among the updates. -/
theorem thread_updates_keep (rest : List (Nat × Event)) (u : Nat) (f : Event)
    (h : f.is_mutation = true ∨ f.is_publish = true) :
    thread_updates ((u, f) :: rest) = (u, f) :: thread_updates rest := by
  cases f <;> simp [thread_updates, Event.is_mutation, Event.is_publish] at h ⊢

/-- A mutation in front of the rest of its section gives a list of whole sections. -/
theorem mutation_then_publish_open (l : List (Nat × Event)) (u : Nat) (f : Event)
    (hf : f.is_mutation = true) (hr : publish_then_rest u l = true) :
    mutation_then_publish ((u, f) :: l) = true := by
  cases l with
  | nil => simpa [mutation_then_publish] using hf
  | cons g more =>
    obtain ⟨v, g⟩ := g
    simp only [publish_then_rest, Bool.and_eq_true, decide_eq_true_eq] at hr
    simp [mutation_then_publish, hf, hr.1.1, hr.1.2, hr.2]

/-- In a record whose update sections do not overlap, every mutation is directly followed by
the publish of the same thread. -/
theorem LockPhase.run_updates (trace : List (Nat × Event)) :
    ∀ p q : LockPhase, LockPhase.run p trace = some q →
      (∀ h, p = LockPhase.mutated h → publish_then_rest h (thread_updates trace) = true) ∧
      ((∀ h, p ≠ LockPhase.mutated h) → mutation_then_publish (thread_updates trace) = true) := by
  induction trace with
  | nil =>
    intro p q _
    exact ⟨fun _ _ => rfl, fun _ => rfl⟩
  | cons e rest ih =>
    intro p q h
    obtain ⟨t, ev⟩ := e
    simp only [LockPhase.run] at h
    cases hn : p.next (t, ev) with
    | none => simp [hn] at h
    | some p' =>
      rw [hn] at h
      have ih' := ih p' q h
      have hfilter := thread_updates_skip rest
      have hkeep := thread_updates_keep rest
      have hopen := mutation_then_publish_open (thread_updates rest)
      have hfree : ∀ h, LockPhase.free ≠ LockPhase.mutated h := fun _ hh => by cases hh
      have hlocked : ∀ a h, LockPhase.locked a ≠ LockPhase.mutated h := fun _ _ hh => by cases hh
      have hpublished : ∀ a h, LockPhase.published a ≠ LockPhase.mutated h :=
        fun _ _ hh => by cases hh
      cases p <;> cases ev <;> simp [LockPhase.next] at hn
      · subst hn
        refine ⟨fun h hh => absurd hh (hfree h), fun _ => ?_⟩
        rw [hfilter _ Event.lock rfl rfl]
        exact ih'.2 (hlocked _)
      · obtain ⟨rfl, rfl⟩ := hn
        refine ⟨fun h hh => absurd hh (hlocked _ h), fun _ => ?_⟩
        rw [hkeep _ (Event.add_node _ _ _) (Or.inl rfl)]
        exact hopen _ (Event.add_node _ _ _) rfl (ih'.1 _ rfl)
      · obtain ⟨rfl, rfl⟩ := hn
        refine ⟨fun h hh => absurd hh (hlocked _ h), fun _ => ?_⟩
        rw [hkeep _ (Event.remove_node _ _ _) (Or.inl rfl)]
        exact hopen _ (Event.remove_node _ _ _) rfl (ih'.1 _ rfl)
      · obtain ⟨rfl, rfl⟩ := hn
        refine ⟨fun h' hh => ?_, fun hh => absurd rfl (hh _)⟩
        cases hh
        rw [hkeep _ (Event.publish _) (Or.inr rfl)]
        simp [publish_then_rest, Event.is_publish, ih'.2 (hpublished _)]
      · obtain ⟨rfl, rfl⟩ := hn
        refine ⟨fun h hh => absurd hh (hpublished _ h), fun _ => ?_⟩
        rw [hfilter _ Event.unlock rfl rfl]
        exact ih'.2 hfree

/-- On every path of `__rmw_create_node` the mutex is free again when the call returns. -/
theorem rmw_create_node_lock_released (env : Env) (ctx : Context)
    (identifier name namespace_ : String) :
    lock_held (new_events ctx.trace (rmw_create_node env ctx identifier name namespace_).2.trace)
      = false := by
  unfold rmw_create_node
  rcases env.rmw_validate_node_name name with ⟨r1, v1⟩
  rcases env.rmw_validate_namespace namespace_ with ⟨r2, v2⟩
  dsimp only
  by_cases c1 : r1 ≠ RMW_RET_OK ∨ v1 ≠ RMW_NODE_NAME_VALID
  · rw [if_pos c1]
    simp [new_events, lock_held]
  · rw [if_neg c1]
    by_cases c2 : r2 ≠ RMW_RET_OK ∨ v2 ≠ RMW_NAMESPACE_VALID
    · rw [if_pos c2]
      simp [new_events, lock_held]
    · rw [if_neg c2]
      by_cases hpub :
        env.rmw_publish (ctx.graph_cache.add_node ctx.gid name namespace_).2 = RMW_RET_OK <;>
      cases env.zero_allocate_ok <;> cases env.strdup_name_ok <;>
        cases env.strdup_namespace_ok <;>
        simp [Context.allocate, rcutils_strdup, cleanup_node, Context.deallocate,
          Context.emit, hpub, new_events, lock_held]

/-- On every path of `__rmw_destroy_node` the mutex is free again when the call returns. -/
theorem rmw_destroy_node_lock_released (env : Env) (ctx : Context) (identifier : String)
    (node : rmw_node_t) (ret : rmw_ret_t) (ctx' : Context)
    (h : rmw_destroy_node env ctx identifier node = some (ret, ctx')) :
    lock_held (new_events ctx.trace ctx'.trace) = false := by
  cases hn : node.name with
  | none => simp [rmw_destroy_node, hn] at h
  | some nm =>
    cases hs : node.namespace_ with
    | none => simp [rmw_destroy_node, hn, hs] at h
    | some ns =>
      rw [rmw_destroy_node_shape env ctx identifier node nm ns hn hs] at h
      by_cases hpub : env.rmw_publish
          (ctx.graph_cache.remove_node ctx.gid nm.chars ns.chars).2 = RMW_RET_OK
      · rw [if_pos hpub] at h
        simp only [Option.some.injEq, Prod.mk.injEq] at h
        rw [← h.2]
        simp [new_events, lock_held]
      · rw [if_neg hpub] at h
        simp only [Option.some.injEq, Prod.mk.injEq] at h
        rw [← h.2]
        simp [new_events, lock_held]

/-- A thread that runs its update section alone makes the calls `__rmw_create_node` makes
between its allocations and its deallocations, with the same message and the same cache. -/
theorem update_run_alone_create_node (env : Env) (ctx : Context)
    (identifier name namespace_ : String) (t : Nat)
    (publish : Nat → ParticipantEntitiesInfo → rmw_ret_t) (mutation : Nat → Mutation)
    (hname : env.rmw_validate_node_name name = (RMW_RET_OK, RMW_NODE_NAME_VALID))
    (hns : env.rmw_validate_namespace namespace_ = (RMW_RET_OK, RMW_NAMESPACE_VALID))
    (hnode : env.zero_allocate_ok = true)
    (hcopy1 : env.strdup_name_ok = true)
    (hcopy2 : env.strdup_namespace_ok = true)
    (hm : mutation t = Mutation.create_node name namespace_) :
    (update_run publish mutation (update_start ctx) [t, t, t, t]).graph_cache =
      (rmw_create_node env ctx identifier name namespace_).2.graph_cache ∧
    (update_run publish mutation (update_start ctx) [t, t, t, t]).node_update_mutex = none ∧
    ∃ pre post : List Event,
      new_events ctx.trace (rmw_create_node env ctx identifier name namespace_).2.trace =
        pre ++ (update_run publish mutation (update_start ctx) [t, t, t, t]).trace.map Prod.snd
          ++ post ∧
      update_events pre = [] ∧ update_events post = [] := by
  have hrun : update_run publish mutation (update_start ctx) [t, t, t, t] =
      { gid := ctx.gid, graph_cache := (ctx.graph_cache.add_node ctx.gid name namespace_).1,
        node_update_mutex := none,
        point := Function.update (Function.update (Function.update (Function.update
          (fun _ => UpdatePoint.before_lock) t UpdatePoint.holding) t
          (UpdatePoint.mutated (ctx.graph_cache.add_node ctx.gid name namespace_).2)) t
          (UpdatePoint.published
            (publish t (ctx.graph_cache.add_node ctx.gid name namespace_).2))) t
          UpdatePoint.after_unlock,
        trace := [(t, Event.lock), (t, Event.add_node ctx.gid name namespace_),
          (t, Event.publish (ctx.graph_cache.add_node ctx.gid name namespace_).2),
          (t, Event.unlock)] } := by
    simp [update_run, update_step, update_start, hm, Mutation.apply, Mutation.event]
  rw [hrun, rmw_create_node_update env ctx identifier name namespace_ hname hns hnode hcopy1
    hcopy2]
  by_cases hpub :
      env.rmw_publish (ctx.graph_cache.add_node ctx.gid name namespace_).2 = RMW_RET_OK
  · rw [if_pos hpub]
    exact ⟨rfl, rfl, [Event.allocate ctx.allocator.next, Event.allocate (ctx.allocator.next + 1),
        Event.allocate (ctx.allocator.next + 2)], [],
      by simp [new_events], by simp [update_events], by simp [update_events]⟩
  · rw [if_neg hpub]
    exact ⟨rfl, rfl, [Event.allocate ctx.allocator.next, Event.allocate (ctx.allocator.next + 1),
        Event.allocate (ctx.allocator.next + 2)],
      [Event.deallocate (ctx.allocator.next + 1), Event.deallocate (ctx.allocator.next + 2),
        Event.deallocate ctx.allocator.next],
      by simp [new_events], by simp [update_events], by simp [update_events]⟩

/-- C11: let any number of threads each run the update section of `__rmw_create_node` or of
`__rmw_destroy_node` on one context, under any schedule.  Then the record of their calls is a
sequence of update sections that do not overlap: after the `lock` of a thread the next events
are the cache mutation of that thread, the publish of that thread and its `unlock`, and only
then the `lock` of another thread.  So every cache mutation is directly followed by the publish
of the same thread, before any other mutation or publish.  At most one thread is inside
its section, the mutex is owned exactly by that thread, and the step after the publish releases
the mutex whatever the publish returned.  In the functions themselves the mutex is free again on
every return path, a failed publish included. -/
theorem node_updates_never_interleave
    (publish : Nat → ParticipantEntitiesInfo → rmw_ret_t) (mutation : Nat → Mutation)
    (ctx : Context) (schedule : List Nat) :
    LockPhase.run LockPhase.free (update_run publish mutation (update_start ctx) schedule).trace =
      some (update_run publish mutation (update_start ctx) schedule).phase ∧
    mutation_then_publish
      (thread_updates (update_run publish mutation (update_start ctx) schedule).trace) = true ∧
    (∀ t u : Nat,
      ((update_run publish mutation (update_start ctx) schedule).point t).in_section = true →
      ((update_run publish mutation (update_start ctx) schedule).point u).in_section = true →
      t = u) ∧
    (∀ t : Nat,
      ((update_run publish mutation (update_start ctx) schedule).point t).in_section = true ↔
      (update_run publish mutation (update_start ctx) schedule).node_update_mutex = some t) ∧
    (∀ (t : Nat) (ret : rmw_ret_t),
      (update_run publish mutation (update_start ctx) schedule).point t =
        UpdatePoint.published ret →
      (update_step publish mutation
        (update_run publish mutation (update_start ctx) schedule) t).node_update_mutex = none ∧
      (update_step publish mutation
        (update_run publish mutation (update_start ctx) schedule) t).point t =
          UpdatePoint.after_unlock) ∧
    (∀ (env : Env) (identifier name namespace_ : String),
      lock_held (new_events ctx.trace
        (rmw_create_node env ctx identifier name namespace_).2.trace) = false) ∧
    (∀ (env : Env) (identifier : String) (node : rmw_node_t) (ret : rmw_ret_t) (ctx' : Context),
      rmw_destroy_node env ctx identifier node = some (ret, ctx') →
      lock_held (new_events ctx.trace ctx'.trace) = false) := by
  have hc := update_run_consistent publish mutation schedule (update_start ctx)
    (update_start_consistent ctx)
  obtain ⟨hrun, hown⟩ := hc
  refine ⟨hrun, ?_, ?_, hown, ?_, ?_, ?_⟩
  · exact (LockPhase.run_updates _ _ _ hrun).2 (fun _ hh => by cases hh)
  · intro t u ht hu
    have h1 := (hown t).1 ht
    have h2 := (hown u).1 hu
    rw [h1] at h2
    exact Option.some.inj h2
  · intro t ret hp
    simp [update_step, hp]
  · intro env identifier name namespace_
    exact rmw_create_node_lock_released env ctx identifier name namespace_
  · intro env identifier node ret ctx' h
    exact rmw_destroy_node_lock_released env ctx identifier node ret ctx' h

/-- Two threads on `ctx0`: thread 0 creates "talker" and its publish fails, thread 1 destroys
it.  Thread 1 is scheduled while thread 0 holds the mutex and has to wait; its section follows
the whole section of thread 0.  A record in which thread 1 locks inside the section of thread 0
is not one of non-overlapping sections. -/
theorem node_updates_never_interleave_witness :
    (update_run (fun t _ => if t = 0 then RMW_RET_ERROR else RMW_RET_OK) mutation0
      (update_start ctx0) [0, 1, 0, 1, 1, 0, 1, 0, 1, 1, 1, 1]).trace =
      [(0, Event.lock), (0, Event.add_node 7 "talker" "/"),
       (0, Event.publish { gid := 7, node_entities_info_seq := [node_record "talker" "/"] }),
       (0, Event.unlock),
       (1, Event.lock), (1, Event.remove_node 7 "talker" "/"),
       (1, Event.publish { gid := 7, node_entities_info_seq := [] }),
       (1, Event.unlock)] ∧
    mutation_then_publish (thread_updates
      (update_run (fun t _ => if t = 0 then RMW_RET_ERROR else RMW_RET_OK) mutation0
        (update_start ctx0) [0, 1, 0, 1, 1, 0, 1, 0, 1, 1, 1, 1]).trace) = true ∧
    LockPhase.run LockPhase.free
      [(0, Event.lock), (1, Event.lock), (0, Event.add_node 7 "talker" "/")] = none :=
  ⟨by decide,
   (node_updates_never_interleave (fun t _ => if t = 0 then RMW_RET_ERROR else RMW_RET_OK)
      mutation0 ctx0 [0, 1, 0, 1, 1, 0, 1, 0, 1, 1, 1, 1]).2.1,
   by decide⟩

end RmwFastrtps
